import Mathlib

/-!
Verification of the netdata Nvidia GPU plugin (`nv.chart.py`).

The development shallowly embeds the plugin's `Service.check` and
`Service._get_data` methods.  Python dictionaries holding the snapshot are
modelled as association lists over `String` keys, dictionary values as the
sum type `PyVal` (Python `None`, `int`, `str`), fallible code as `Except`
(an uncaught Python exception is `.error ()`), and the NVML library and the
`nvidia-settings` subprocess as explicit input structures describing the
outcome of every external call of one collection pass.
-/

namespace NvPlugin

/-- A value stored in the plugin's `data` dictionary: Python `None`, an
integer scalar, or a string. -/
inductive PyVal where
  | none
  | int (n : Int)
  | str (s : String)
deriving DecidableEq, Repr

/-- The `data` dictionary of `_get_data`: insertion-ordered association list,
as a model of a Python `dict` with string keys. -/
abbrev Dict := List (String × PyVal)

/-- Python `d[k]` as an optional lookup: `Option.none` means the key is
missing (Python would raise `KeyError`); `some v` means the key is present
with value `v` (which may itself be Python `None`, i.e. `PyVal.none`). -/
def dget : Dict → String → Option PyVal
  | [], _ => Option.none
  | (k', v') :: rest, k => if k' = k then some v' else dget rest k

/-- Python `d[k] = v`: replace in place when the key exists, append
otherwise (insertion order semantics of Python dicts). -/
def dset : Dict → String → PyVal → Dict
  | [], k, v => [(k, v)]
  | (k', v') :: rest, k, v =>
      if k' = k then (k, v) :: rest else (k', v') :: dset rest k v

/-- Python `str(x)` on a dictionary value. -/
def pyStr : PyVal → String
  | PyVal.none => "None"
  | PyVal.int n => toString n
  | PyVal.str s => s

/-- Decimal digit run parser: fails on any non-digit character. -/
def parseDigits : List Char → Nat → Option Nat
  | [], acc => some acc
  | c :: rest, acc =>
      if c.isDigit then parseDigits rest (acc * 10 + (c.toNat - 48)) else Option.none

/-- Python `int(s)` on a captured string (the regex captures are runs of
`\d`, possibly empty, so sign/digit strings are the relevant domain):
`Option.none` when the conversion raises `ValueError`, e.g. on the empty
string or a non-numeric capture. -/
def pyInt (s : String) : Option Int :=
  match s.data with
  | [] => Option.none
  | '-' :: rest =>
      match rest with
      | [] => Option.none
      | _ => (parseDigits rest 0).map fun n => -(n : Int)
  | l => (parseDigits l 0).map fun n => (n : Int)

/-- Dictionary read that raises `KeyError` when the key is missing,
modelling Python's `d[k]` in an expression position. -/
def dgetE (d : Dict) (k : String) : Except Unit PyVal :=
  match dget d k with
  | some v => Except.ok v
  | Option.none => Except.error ()

/-- Keys of a dictionary, in insertion order. -/
def dkeys (d : Dict) : List String := d.map Prod.fst

/-!
### The ECC-error retrieval loop

`_get_data` builds `eccErrors` through three Python dicts `_memError`,
`_eccCounter`, `eccErrors`, all three created **once** before the
`5 x 2 x 2` loop.  The inner assignments store *references* to the inner
dicts, so the embedding keeps an explicit two-cell heap: address 0 is the
`_memError` object and address 1 the `_eccCounter` object; a dict value is
either an integer or a reference to one of these objects, exactly as in
the CPython object model.
-/

/-- A value held by one of the ECC dictionaries: an integer counter or a
reference to another dict object on the heap. -/
inductive HVal where
  | int (n : Int)
  | ref (addr : Nat)
deriving DecidableEq, Repr

/-- Contents of a single Python dict object used by the ECC loop. -/
abbrev HDict := List (String × HVal)

/-- Lookup `d[k]` on an ECC dict. -/
def hget : HDict → String → Option HVal
  | [], _ => Option.none
  | (k', v') :: rest, k => if k' = k then some v' else hget rest k

/-- Assignment `d[k] = v` on an ECC dict. -/
def hset : HDict → String → HVal → HDict
  | [], k, v => [(k, v)]
  | (k', v') :: rest, k, v =>
      if k' = k then (k, v) :: rest else (k', v') :: hset rest k v

/-- The heap of the ECC loop: the three dict objects created at lines
274-276 of `nv.chart.py` (`_memError`, `_eccCounter`, `eccErrors`). -/
structure EccHeap where
  memErrorDict : HDict
  eccCounterDict : HDict
  eccErrorsDict : HDict
deriving DecidableEq, Repr

/-- Dereference a dict value to the dict object it points to:
address 0 is `_memError`, address 1 is `_eccCounter`. -/
def heapDeref (h : EccHeap) : HVal → Option HDict
  | HVal.ref 0 => some h.memErrorDict
  | HVal.ref 1 => some h.eccCounterDict
  | _ => Option.none

def eccCounterType : List String := ["VOLATILE_ECC", "AGGREGATE_ECC"]
def memErrorType : List String := ["ERROR_TYPE_CORRECTED", "ERROR_TYPE_UNCORRECTED"]
def memoryLocationType : List String :=
  ["L1_CACHE", "L2_CACHE", "DEVICE_MEMORY", "REGISTER_FILE", "TEXTURE_MEMORY"]

/-- String at index `i` of one of the type-name lists (total, as the loops
only index within bounds). -/
def typeName (l : List String) (i : Nat) : String := (l.getD i "")

/-- Innermost loop body: `for memError in range(2): _memError[...] = query`.
`q e c l` is the result of `nvmlDeviceGetMemoryErrorCounter(handle, e, c, l)`,
`Option.none` meaning the library call raised. -/
def eccLoopErr (q : Nat → Nat → Nat → Option Int) (l c : Nat) (h : EccHeap) :
    Option EccHeap :=
  (List.range 2).foldlM
    (fun h e =>
      (q e c l).map fun v =>
        { h with memErrorDict := hset h.memErrorDict (typeName memErrorType e) (HVal.int v) })
    h

/-- Middle loop: `for eccCounter in range(2): ...; _eccCounter[...] = _memError`.
The assignment stores a reference to the `_memError` object (address 0). -/
def eccLoopCtr (q : Nat → Nat → Nat → Option Int) (l : Nat) (h : EccHeap) :
    Option EccHeap :=
  (List.range 2).foldlM
    (fun h c => do
      let h ← eccLoopErr q l c h
      pure { h with
        eccCounterDict := hset h.eccCounterDict (typeName eccCounterType c) (HVal.ref 0) })
    h

/-- Outer loop: `for memoryLocation in range(5): ...; eccErrors[...] = _eccCounter`.
The assignment stores a reference to the `_eccCounter` object (address 1). -/
def eccLoopLoc (q : Nat → Nat → Nat → Option Int) (h : EccHeap) : Option EccHeap :=
  (List.range 5).foldlM
    (fun h l => do
      let h ← eccLoopCtr q l h
      pure { h with
        eccErrorsDict := hset h.eccErrorsDict (typeName memoryLocationType l) (HVal.ref 1) })
    h

/-- The whole guarded ECC block of `_get_data` (lines 272-288): runs the
`5 x 2 x 2` matrix; any raising library call makes the whole block fall into
the `except` branch, i.e. `eccErrors = None` (`Option.none` here). -/
def runEcc (q : Nat → Nat → Nat → Option Int) : Option EccHeap :=
  eccLoopLoc q { memErrorDict := [], eccCounterDict := [], eccErrorsDict := [] }

/-- Evaluation of `eccErrors[loc][ctr][err]` by the packing code, following
the stored references through the heap. -/
def eccLookup (h : EccHeap) (loc ctr err : String) : Option Int := do
  let v1 ← hget h.eccErrorsDict loc
  let d1 ← heapDeref h v1
  let v2 ← hget d1 ctr
  let d2 ← heapDeref h v2
  let v3 ← hget d2 err
  match v3 with
  | HVal.int n => some n
  | HVal.ref _ => Option.none

/-!
### NVML library model

One `DeviceState` (resp. `UnitState`) records the outcome of every library
call `_get_data` makes for one device (resp. unit) during one collection
pass; `Option.none` means the call raised an exception.
-/

/-- Result of `nvmlDeviceGetMemoryInfo`. -/
structure MemInfo where
  total : Int
  used : Int
  free : Int

/-- Result of `nvmlDeviceGetUtilizationRates`. -/
structure UtilRates where
  gpu : Int
  memory : Int

/-- Result of `nvmlUnitGetFanSpeedInfo`. -/
structure FanInfo where
  speed : Int
  state : Int

/-- Result of `nvmlUnitGetPsuInfo` (scalar fields as packed by the code). -/
structure PsuInfo where
  current : Int
  power : Int
  state : Int
  voltage : Int

/-- Per-device outcomes of the NVML calls of one `_get_data` pass. -/
structure DeviceState where
  name : String
  memoryInfo : Option MemInfo
  eccQuery : Nat → Nat → Nat → Option Int
  temperature : Option Int
  fanSpeed : Option Int
  powerUsage : Option Int
  utilization : Option UtilRates
  pcieTx : Option Int
  pcieRx : Option Int

/-- Per-unit outcomes of the NVML calls of one `_get_data` pass.
`tempQuery s` is `nvmlUnitGetTemperature(handle, s)` for sensors 0,1,2. -/
structure UnitState where
  fanInfo : Option FanInfo
  psuInfo : Option PsuInfo
  tempQuery : Nat → Option Int

/-- The installed hardware as seen through NVML for one pass:
`devices.length` is `deviceCount` and `units.length` is `unitCount`. -/
structure NvmlState where
  devices : List DeviceState
  units : List UnitState

/-- An optional scalar packed into the data dict: `None` or the value. -/
def optInt : Option Int → PyVal
  | some n => PyVal.int n
  | Option.none => PyVal.none

/-- The 20 ECC entries in packing order (lines 368-387): snapshot key
fragment together with the three lookup keys into `eccErrors`. -/
def eccEntries : List (String × String × String × String) :=
  [("L1_CACHE_VOLATILE_CORRECTED", "L1_CACHE", "VOLATILE_ECC", "ERROR_TYPE_CORRECTED"),
   ("L1_CACHE_VOLATILE_UNCORRECTED", "L1_CACHE", "VOLATILE_ECC", "ERROR_TYPE_UNCORRECTED"),
   ("L1_CACHE_AGGREGATE_CORRECTED", "L1_CACHE", "AGGREGATE_ECC", "ERROR_TYPE_CORRECTED"),
   ("L1_CACHE_AGGREGATE_UNCORRECTED", "L1_CACHE", "AGGREGATE_ECC", "ERROR_TYPE_UNCORRECTED"),
   ("L2_CACHE_VOLATILE_CORRECTED", "L2_CACHE", "VOLATILE_ECC", "ERROR_TYPE_CORRECTED"),
   ("L2_CACHE_VOLATILE_UNCORRECTED", "L2_CACHE", "VOLATILE_ECC", "ERROR_TYPE_UNCORRECTED"),
   ("L2_CACHE_AGGREGATE_CORRECTED", "L2_CACHE", "AGGREGATE_ECC", "ERROR_TYPE_CORRECTED"),
   ("L2_CACHE_AGGREGATE_UNCORRECTED", "L2_CACHE", "AGGREGATE_ECC", "ERROR_TYPE_UNCORRECTED"),
   ("DEVICE_MEMORY_VOLATILE_CORRECTED", "DEVICE_MEMORY", "VOLATILE_ECC", "ERROR_TYPE_CORRECTED"),
   ("DEVICE_MEMORY_VOLATILE_UNCORRECTED", "DEVICE_MEMORY", "VOLATILE_ECC", "ERROR_TYPE_UNCORRECTED"),
   ("DEVICE_MEMORY_AGGREGATE_CORRECTED", "DEVICE_MEMORY", "AGGREGATE_ECC", "ERROR_TYPE_CORRECTED"),
   ("DEVICE_MEMORY_AGGREGATE_UNCORRECTED", "DEVICE_MEMORY", "AGGREGATE_ECC", "ERROR_TYPE_UNCORRECTED"),
   ("REGISTER_FILE_VOLATILE_CORRECTED", "REGISTER_FILE", "VOLATILE_ECC", "ERROR_TYPE_CORRECTED"),
   ("REGISTER_FILE_VOLATILE_UNCORRECTED", "REGISTER_FILE", "VOLATILE_ECC", "ERROR_TYPE_UNCORRECTED"),
   ("REGISTER_FILE_AGGREGATE_CORRECTED", "REGISTER_FILE", "AGGREGATE_ECC", "ERROR_TYPE_CORRECTED"),
   ("REGISTER_FILE_AGGREGATE_UNCORRECTED", "REGISTER_FILE", "AGGREGATE_ECC", "ERROR_TYPE_UNCORRECTED"),
   ("TEXTURE_MEMORY_VOLATILE_CORRECTED", "TEXTURE_MEMORY", "VOLATILE_ECC", "ERROR_TYPE_CORRECTED"),
   ("TEXTURE_MEMORY_VOLATILE_UNCORRECTED", "TEXTURE_MEMORY", "VOLATILE_ECC", "ERROR_TYPE_UNCORRECTED"),
   ("TEXTURE_MEMORY_AGGREGATE_CORRECTED", "TEXTURE_MEMORY", "AGGREGATE_ECC", "ERROR_TYPE_CORRECTED"),
   ("TEXTURE_MEMORY_AGGREGATE_UNCORRECTED", "TEXTURE_MEMORY", "AGGREGATE_ECC", "ERROR_TYPE_UNCORRECTED")]

/-- Snapshot key for one ECC entry of device `g` (`g` is `str(i)`). -/
def eccKey (kn g : String) : String := "device_ecc_errors_" ++ kn ++ "_" ++ g

/-- Pack a list of ECC entries into the data dict, reading each through
`eccErrors[loc][ctr][err]`; a malformed structure would raise (`.error`). -/
def eccPackAux (h : EccHeap) (g : String) :
    List (String × String × String × String) → Dict → Except Unit Dict
  | [], d => Except.ok d
  | (kn, loc, ctr, err) :: rest, d =>
      match eccLookup h loc ctr err with
      | some n => eccPackAux h g rest (dset d (eccKey kn g) (PyVal.int n))
      | Option.none => Except.error ()

/-- Packing of the 20 ECC keys for one device (lines 368-387). -/
def eccPack (h : EccHeap) (g : String) (d : Dict) : Except Unit Dict :=
  eccPackAux h g eccEntries d

/-- The query/pack body of the device loop of `_get_data` (lines 257-389)
for device index `i`.  Every guarded query is modelled by its `Option`
outcome; the packing phase then writes the keys in source order.  When the
memory query failed (`mem = None`), evaluating `mem.total` at line 339
raises an uncaught `AttributeError`, modelled by `.error ()`. -/
def packDevice (st : DeviceState) (i : Nat) (d : Dict) : Except Unit Dict :=
  let g := toString i
  let ecc := runEcc st.eccQuery
  let gpuUtil := match st.utilization with
    | some u => some u.gpu
    | Option.none => Option.none
  let memUtil := match st.utilization with
    | some u => some u.memory
    | Option.none => Option.none
  let pcie : Option Int × Option Int := match st.pcieTx, st.pcieRx with
    | some a, some b => (some a, some b)
    | _, _ => (Option.none, Option.none)
  let d := dset d ("device_name_" ++ g) (PyVal.str st.name)
  let d := dset d ("device_temp_" ++ g) (optInt st.temperature)
  match st.memoryInfo with
  | Option.none => Except.error ()
  | some m =>
    let d := dset d ("device_mem_total_" ++ g) (PyVal.int m.total)
    let d := dset d ("device_mem_used_" ++ g) (PyVal.int m.used)
    let d := dset d ("device_mem_free_" ++ g) (PyVal.int m.free)
    let d := dset d ("device_util_gpu_" ++ g) (optInt gpuUtil)
    let d := dset d ("device_util_mem_" ++ g) (optInt memUtil)
    let d := dset d ("device_util_pcie_tx_" ++ g) (optInt pcie.1)
    let d := dset d ("device_util_pcie_rx_" ++ g) (optInt pcie.2)
    let d := dset d ("device_fanspeed_" ++ g) (optInt st.fanSpeed)
    let d := dset d ("device_power_" ++ g) (optInt st.powerUsage)
    match ecc with
    | some h => eccPack h g d
    | Option.none =>
        Except.ok (dset d ("device_ecc_errors_L1_CACHE_VOLATILE_CORRECTED_" ++ g) PyVal.none)

/-- Loop `for i in range(self.deviceCount)` over the device list, starting at
index `i0`. -/
def packDevices : List DeviceState → Nat → Dict → Except Unit Dict
  | [], _, d => Except.ok d
  | st :: rest, i0, d => do
      let d ← packDevice st i0 d
      packDevices rest (i0 + 1) d

/-- The query/pack body of the unit loop of `_get_data` (lines 393-454).
All unit queries are fully guarded, so this step cannot raise. -/
def packUnit (st : UnitState) (i : Nat) (d : Dict) : Dict :=
  let g := toString i
  let fanSpeed := match st.fanInfo with
    | some f => some f.speed
    | Option.none => Option.none
  let fanState := match st.fanInfo with
    | some f => some f.state
    | Option.none => Option.none
  let psu : Option Int × Option Int × Option Int × Option Int :=
    match st.psuInfo with
    | some p => (some p.current, some p.power, some p.state, some p.voltage)
    | Option.none => (Option.none, Option.none, Option.none, Option.none)
  let temps : Option Int × Option Int × Option Int :=
    match st.tempQuery 0, st.tempQuery 1, st.tempQuery 2 with
    | some a, some b, some c => (some a, some b, some c)
    | _, _, _ => (Option.none, Option.none, Option.none)
  let d := dset d ("unit_fan_speed_" ++ g) (optInt fanSpeed)
  let d := dset d ("unit_fan_state_" ++ g) (optInt fanState)
  let d := dset d ("unit_psu_current_" ++ g) (optInt psu.1)
  let d := dset d ("unit_psu_power_" ++ g) (optInt psu.2.1)
  let d := dset d ("unit_psu_state_" ++ g) (optInt psu.2.2.1)
  let d := dset d ("unit_psu_voltage_" ++ g) (optInt psu.2.2.2)
  let d := dset d ("unit_temp_intake_" ++ g) (optInt temps.1)
  let d := dset d ("unit_temp_exhaust_" ++ g) (optInt temps.2.1)
  dset d ("unit_temp_board_" ++ g) (optInt temps.2.2)

/-- Loop `for i in range(self.unitCount)` over the unit list. -/
def packUnits : List UnitState → Nat → Dict → Dict
  | [], _, d => d
  | st :: rest, i0, d => packUnits rest (i0 + 1) (packUnit st i0 d)

/-- The primary (NVML) part of `_get_data`: device loop then unit loop. -/
def getDataPrimary (nv : NvmlState) : Except Unit Dict := do
  let d ← packDevices nv.devices 0 []
  Except.ok (packUnits nv.units 0 d)

/-!
### Legacy (`nvidia-settings`) model

`LegacyWorld` records the outcome of the one external command invocation of
a pass: whether `Popen/communicate` raised, the captured text after
`repr(str(output))`, and the `findall` match lists of the three patterns
(the second capture group for the temperature and memory patterns, the
second and third groups for the utilization pattern).  `findall` is a pure
function of the output, so repeated calls yield the same lists.
-/

structure LegacyWorld where
  cmdFails : Bool
  output : String
  tempMatches : List String
  memMatches : List String
  utilMatches : List (String × String)

/-- One field of the legacy loop body, e.g. lines 482-488:
```
if data[key] is None:
    cap = findall(pattern, output)[i][g]   -- IndexError NOT caught
    try: data[key] = int(cap)
    except: pass                           -- conversion failure caught
```
A missing key raises `KeyError`; a missing match raises `IndexError`; a
non-numeric capture is caught and skipped. -/
def legacyField (d : Dict) (key : String) (cap : Option String) : Except Unit Dict :=
  match dget d key with
  | Option.none => Except.error ()
  | some PyVal.none =>
      match cap with
      | Option.none => Except.error ()
      | some s =>
          match pyInt s with
          | some v => Except.ok (dset d key (PyVal.int v))
          | Option.none => Except.ok d
  | some _ => Except.ok d

/-- The four legacy-recovered fields for device `i` (lines 482-509). -/
def legacyDevice (w : LegacyWorld) (i : Nat) (d : Dict) : Except Unit Dict := do
  let g := toString i
  let d ← legacyField d ("device_temp_" ++ g) w.tempMatches[i]?
  let d ← legacyField d ("device_mem_used_" ++ g) w.memMatches[i]?
  let d ← legacyField d ("device_util_gpu_" ++ g) ((w.utilMatches[i]?).map Prod.fst)
  legacyField d ("device_util_mem_" ++ g) ((w.utilMatches[i]?).map Prod.snd)

/-- Loop `for i in range(self.deviceCount)` of the legacy loop. -/
def legacyLoop (w : LegacyWorld) : List Nat → Dict → Except Unit Dict
  | [], d => Except.ok d
  | i :: rest, d => do
      let d ← legacyDevice w i d
      legacyLoop w rest d

/-- Model of `Service._get_data` (lines 253-511): primary pass, then — when legacy
mode is enabled — the guarded command invocation followed by the legacy
loop.  The returned `Bool` is the value of `self.legacy` after the pass:
a failed/short command output is caught, sets `self.legacy = False` and
returns the primary data (lines 475-479); an exception inside the legacy
loop itself is not caught and aborts the call. -/
def getData (nv : NvmlState) (legacy : Bool) (w : LegacyWorld) :
    Except Unit (Dict × Bool) := do
  let d ← getDataPrimary nv
  if legacy then
    if w.cmdFails ∨ w.output.length < 800 then
      Except.ok (d, false)
    else
      match legacyLoop w (List.range nv.devices.length) d with
      | Except.ok d2 => Except.ok (d2, true)
      | Except.error e => Except.error e
  else
    Except.ok (d, legacy)

/-!
### The schema builder (`Service.check`, lines 165-251)

A chart definition is its `options` list (element 1 is the title) and its
`lines` list; a metric line is the literal Python list appended by the
code, reusing `PyVal` for its elements.  `Definitions` is the
`self.definitions` dict: the eight statically declared charts plus the two
unit charts that may be inserted by the unit loop.  The embedding starts
after NVML initialization succeeded, with the device/unit counts and one
`_get_data` snapshot given, which is where the claims about `check` live.
-/

/-- One value of `self.definitions`: `{'options': [...], 'lines': [...]}`. -/
structure ChartDef where
  options : List PyVal
  lines : List (List PyVal)
deriving DecidableEq, Repr

/-- The `self.definitions` dict.  The eight fixed charts always exist; the
`unit_fan` / `unit_psu` entries only after the unit loop inserted them. -/
structure Definitions where
  memory : ChartDef
  utilization : ChartDef
  memoryutilization : ChartDef
  ecc_errors : ChartDef
  temperature : ChartDef
  fan : ChartDef
  pcie : ChartDef
  power : ChartDef
  unit_fan : Option ChartDef
  unit_psu : Option ChartDef
deriving DecidableEq, Repr

/-- The module-level `ORDER` list. -/
def ORDER : List String :=
  ["utilization", "memoryutilization", "memory", "pcie", "temperature", "fan", "power",
   "ecc_errors"]

/-- The module-level `CHARTS` dict (lines 71-112). -/
def initialDefinitions : Definitions where
  memory :=
    { options := [PyVal.none, PyVal.str "Memory", PyVal.str "MB", PyVal.str "Memory",
        PyVal.str "nv.memory", PyVal.str "line"], lines := [] }
  utilization :=
    { options := [PyVal.none, PyVal.str "Utilization", PyVal.str "%", PyVal.str "Utilization",
        PyVal.str "nv.utilization", PyVal.str "line"], lines := [] }
  memoryutilization :=
    { options := [PyVal.none, PyVal.str "Memory Utilization", PyVal.str "%",
        PyVal.str "Memory Utilization", PyVal.str "nv.memoryutilization", PyVal.str "line"],
      lines := [] }
  ecc_errors :=
    { options := [PyVal.none, PyVal.str "ECC errors", PyVal.str "counts", PyVal.str "ECC",
        PyVal.str "nv.ecc", PyVal.str "line"], lines := [] }
  temperature :=
    { options := [PyVal.none, PyVal.str "GPU temperature", PyVal.str "C",
        PyVal.str "Temperature", PyVal.str "nv.temperature", PyVal.str "line"], lines := [] }
  fan :=
    { options := [PyVal.none, PyVal.str "Fan speed", PyVal.str "%", PyVal.str "Fans",
        PyVal.str "nv.fan", PyVal.str "line"], lines := [] }
  pcie :=
    { options := [PyVal.none, PyVal.str "PCI Express Bandwidth Utilization", PyVal.str "KiB/s",
        PyVal.str "PCIe Utilization", PyVal.str "nv.pcie", PyVal.str "area"], lines := [] }
  power :=
    { options := [PyVal.none, PyVal.str "Power Consumption", PyVal.str "Watt", PyVal.str "Power",
        PyVal.str "nv.power", PyVal.str "line"], lines := [] }
  unit_fan := Option.none
  unit_psu := Option.none

/-- The name-building loop (lines 167-172): concatenates
`str(data['device_name_i']) + ' [i]'` over devices, separated by `' | '`. -/
def buildName (data : Dict) : List Nat → String → Except Unit String
  | [], acc => Except.ok acc
  | i :: rest, acc => do
      let v ← dgetE data ("device_name_" ++ toString i)
      let piece := pyStr v ++ " [" ++ toString i ++ "]"
      buildName data rest (if i == 0 then acc ++ piece else acc ++ " | " ++ piece)

/-- Update `definitions[chart]['options'][1] += ' for ' + name` for one chart;
a non-string title would raise. -/
def suffixTitle (c : ChartDef) (name : String) : Except Unit ChartDef :=
  match c.options[1]? with
  | some (PyVal.str t) =>
      Except.ok { c with options := c.options.set 1 (PyVal.str (t ++ " for " ++ name)) }
  | _ => Except.error ()

/-- Same for an optional (unit) chart entry. -/
def suffixTitleOpt (c : Option ChartDef) (name : String) : Except Unit (Option ChartDef) :=
  match c with
  | Option.none => Except.ok Option.none
  | some c => do Except.ok (some (← suffixTitle c name))

/-- The title loop (lines 174-175): every chart currently in
`self.definitions` gets the device-name suffix appended to its title. -/
def suffixAll (defs : Definitions) (name : String) : Except Unit Definitions := do
  Except.ok
    { memory := ← suffixTitle defs.memory name
      utilization := ← suffixTitle defs.utilization name
      memoryutilization := ← suffixTitle defs.memoryutilization name
      ecc_errors := ← suffixTitle defs.ecc_errors name
      temperature := ← suffixTitle defs.temperature name
      fan := ← suffixTitle defs.fan name
      pcie := ← suffixTitle defs.pcie name
      power := ← suffixTitle defs.power name
      unit_fan := ← suffixTitleOpt defs.unit_fan name
      unit_psu := ← suffixTitleOpt defs.unit_psu name }

/-- Append one line to a chart. -/
def addLine (c : ChartDef) (ln : List PyVal) : ChartDef :=
  { c with lines := c.lines ++ [ln] }

/-- The 20 ECC metric lines appended for device `i` (lines 197-216), in
source order; the labels render `'... [{0}]'.format(i)`. -/
def ecc20Lines (i : Nat) : List (List PyVal) :=
  let g := toString i
  [[PyVal.str (eccKey "L1_CACHE_VOLATILE_CORRECTED" g),
    PyVal.str ("L1 Cache Volatile Corrected [" ++ g ++ "]"), PyVal.str "absolute"],
   [PyVal.str (eccKey "L1_CACHE_VOLATILE_UNCORRECTED" g),
    PyVal.str ("L1 Cache Volatile Uncorrected [" ++ g ++ "]"), PyVal.str "absolute"],
   [PyVal.str (eccKey "L1_CACHE_AGGREGATE_CORRECTED" g),
    PyVal.str ("L1 Cache Aggregate Corrected [" ++ g ++ "]"), PyVal.str "absolute"],
   [PyVal.str (eccKey "L1_CACHE_AGGREGATE_UNCORRECTED" g),
    PyVal.str ("L1 Cache Aggregate Uncorrected [" ++ g ++ "]"), PyVal.str "absolute"],
   [PyVal.str (eccKey "L2_CACHE_VOLATILE_CORRECTED" g),
    PyVal.str ("L2 Cache Volatile Corrected [" ++ g ++ "]"), PyVal.str "absolute"],
   [PyVal.str (eccKey "L2_CACHE_VOLATILE_UNCORRECTED" g),
    PyVal.str ("L2 Cache Volatile Uncorrected [" ++ g ++ "]"), PyVal.str "absolute"],
   [PyVal.str (eccKey "L2_CACHE_AGGREGATE_CORRECTED" g),
    PyVal.str ("L2 Cache Aggregate Corrected [" ++ g ++ "]"), PyVal.str "absolute"],
   [PyVal.str (eccKey "L2_CACHE_AGGREGATE_UNCORRECTED" g),
    PyVal.str ("L2 Cache Aggregate Uncorrected [" ++ g ++ "]"), PyVal.str "absolute"],
   [PyVal.str (eccKey "DEVICE_MEMORY_VOLATILE_CORRECTED" g),
    PyVal.str ("Device Memory Volatile Corrected [" ++ g ++ "]"), PyVal.str "absolute"],
   [PyVal.str (eccKey "DEVICE_MEMORY_VOLATILE_UNCORRECTED" g),
    PyVal.str ("Device Memory Volatile Uncorrected [" ++ g ++ "]"), PyVal.str "absolute"],
   [PyVal.str (eccKey "DEVICE_MEMORY_AGGREGATE_CORRECTED" g),
    PyVal.str ("Device Memory Aggregate Corrected [" ++ g ++ "]"), PyVal.str "absolute"],
   [PyVal.str (eccKey "DEVICE_MEMORY_AGGREGATE_UNCORRECTED" g),
    PyVal.str ("Device Memory Aggregate Uncorrected [" ++ g ++ "]"), PyVal.str "absolute"],
   [PyVal.str (eccKey "REGISTER_FILE_VOLATILE_CORRECTED" g),
    PyVal.str ("Register File Volatile Corrected [" ++ g ++ "]"), PyVal.str "absolute"],
   [PyVal.str (eccKey "REGISTER_FILE_VOLATILE_UNCORRECTED" g),
    PyVal.str ("Register File Volatile Uncorrected [" ++ g ++ "]"), PyVal.str "absolute"],
   [PyVal.str (eccKey "REGISTER_FILE_AGGREGATE_CORRECTED" g),
    PyVal.str ("Register File Aggregate Corrected [" ++ g ++ "]"), PyVal.str "absolute"],
   [PyVal.str (eccKey "REGISTER_FILE_AGGREGATE_UNCORRECTED" g),
    PyVal.str ("Register File Aggregate Uncorrected [" ++ g ++ "]"), PyVal.str "absolute"],
   [PyVal.str (eccKey "TEXTURE_MEMORY_VOLATILE_CORRECTED" g),
    PyVal.str ("Texture Memory Volatile Corrected [" ++ g ++ "]"), PyVal.str "absolute"],
   [PyVal.str (eccKey "TEXTURE_MEMORY_VOLATILE_UNCORRECTED" g),
    PyVal.str ("Texture Memory Volatile Uncorrected [" ++ g ++ "]"), PyVal.str "absolute"],
   [PyVal.str (eccKey "TEXTURE_MEMORY_AGGREGATE_CORRECTED" g),
    PyVal.str ("Texture Memory Aggregate Corrected [" ++ g ++ "]"), PyVal.str "absolute"],
   [PyVal.str (eccKey "TEXTURE_MEMORY_AGGREGATE_UNCORRECTED" g),
    PyVal.str ("Texture Memory Aggregate Uncorrected [" ++ g ++ "]"), PyVal.str "absolute"]]

/-- The per-device body of the line-adding loop (lines 177-228): the seven
snapshot keys are read in source order (a missing key raises `KeyError`),
and each gated append targets its own chart, so the sequential updates of
the source are collected into one record construction over disjoint
fields. -/
def addDeviceLines (data : Dict) (i : Nat) (defs : Definitions) : Except Unit Definitions := do
  let g := toString i
  let lnMem : List PyVal :=
    [PyVal.str ("device_mem_used_" ++ g), PyVal.str ("GPU:" ++ g), PyVal.str "absolute",
     PyVal.int 1, PyVal.int (1024 ^ 2)]
  let lnUtilGpu : List PyVal :=
    [PyVal.str ("device_util_gpu_" ++ g), PyVal.str ("GPU:" ++ g), PyVal.str "absolute"]
  let lnUtilMem : List PyVal :=
    [PyVal.str ("device_util_mem_" ++ g), PyVal.str ("GPU:" ++ g), PyVal.str "absolute"]
  let lnTx : List PyVal :=
    [PyVal.str ("device_util_pcie_tx_" ++ g), PyVal.str ("tx [" ++ g ++ "]"),
     PyVal.str "absolute", PyVal.int 1, PyVal.int 1]
  let lnRx : List PyVal :=
    [PyVal.str ("device_util_pcie_rx_" ++ g), PyVal.str ("rx [" ++ g ++ "]"),
     PyVal.str "absolute", PyVal.int 1, PyVal.int (-1)]
  let lnTemp : List PyVal :=
    [PyVal.str ("device_temp_" ++ g), PyVal.str ("GPU:" ++ g), PyVal.str "absolute"]
  let lnFan : List PyVal :=
    [PyVal.str ("device_fanspeed_" ++ g), PyVal.str ("GPU:" ++ g), PyVal.str "absolute"]
  let lnPow : List PyVal :=
    [PyVal.str ("device_power_" ++ g), PyVal.str ("GPU:" ++ g), PyVal.str "absolute",
     PyVal.int 1, PyVal.int 1000]
  let vMem ← dgetE data ("device_mem_used_" ++ g)
  let vUtil ← dgetE data ("device_util_gpu_" ++ g)
  let vTx ← dgetE data ("device_util_pcie_tx_" ++ g)
  let vEcc ← dgetE data ("device_ecc_errors_L1_CACHE_VOLATILE_CORRECTED_" ++ g)
  let vTemp ← dgetE data ("device_temp_" ++ g)
  let vFan ← dgetE data ("device_fanspeed_" ++ g)
  let vPow ← dgetE data ("device_power_" ++ g)
  Except.ok
    { defs with
      memory := if vMem ≠ PyVal.none then addLine defs.memory lnMem else defs.memory
      utilization :=
        if vUtil ≠ PyVal.none then addLine defs.utilization lnUtilGpu else defs.utilization
      memoryutilization :=
        if vUtil ≠ PyVal.none then addLine defs.memoryutilization lnUtilMem
        else defs.memoryutilization
      pcie := if vTx ≠ PyVal.none then addLine (addLine defs.pcie lnTx) lnRx else defs.pcie
      ecc_errors :=
        if vEcc ≠ PyVal.none then
          { defs.ecc_errors with lines := defs.ecc_errors.lines ++ ecc20Lines i }
        else defs.ecc_errors
      temperature :=
        if vTemp ≠ PyVal.none then addLine defs.temperature lnTemp else defs.temperature
      fan := if vFan ≠ PyVal.none then addLine defs.fan lnFan else defs.fan
      power := if vPow ≠ PyVal.none then addLine defs.power lnPow else defs.power }

/-- The device loop of `check` over the listed indices. -/
def loopDevices (data : Dict) : List Nat → Definitions → Except Unit Definitions
  | [], defs => Except.ok defs
  | i :: rest, defs => do
      let defs ← addDeviceLines data i defs
      loopDevices data rest defs

/-- The whole `unit_fan` chart dict assigned for a reporting unit `i`
(lines 241-243): the assignment replaces any previous value. -/
def unitFanChart (i : Nat) : ChartDef :=
  { options := [PyVal.none, PyVal.str "Unit fan", PyVal.str "rpm", PyVal.str "Unit Fans",
      PyVal.str "nv.unit", PyVal.str "line"],
    lines := [[PyVal.str ("unit_fan_speed_" ++ toString i),
      PyVal.str ("Unit" ++ toString i), PyVal.str "absolute"]] }

/-- The whole `unit_psu` chart dict assigned for a reporting unit `i`
(lines 245-250): three lines, replacing any previous value. -/
def unitPsuChart (i : Nat) : ChartDef :=
  let g := toString i
  { options := [PyVal.none, PyVal.str "Unit PSU", PyVal.str "mixed", PyVal.str "Unit PSU",
      PyVal.str "nv.unit", PyVal.str "line"],
    lines :=
      [[PyVal.str ("unit_psu_current_" ++ g), PyVal.str ("current (A) (unit " ++ g ++ ")"),
        PyVal.str "absolute"],
       [PyVal.str ("unit_psu_power_" ++ g), PyVal.str ("power (W) (unit " ++ g ++ ")"),
        PyVal.str "absolute"],
       [PyVal.str ("unit_psu_voltage_" ++ g), PyVal.str ("voltage (V) (unit " ++ g ++ ")"),
        PyVal.str "absolute"]] }

/-- The per-unit body of the unit loop (lines 234-250): three gated
updates of disjoint entries of `self.definitions`, with the snapshot keys
read in source order. -/
def addUnitLines (data : Dict) (i : Nat) (defs : Definitions) : Except Unit Definitions := do
  let g := toString i
  let lnIntake : List PyVal :=
    [PyVal.str ("unit_temp_intake_" ++ g), PyVal.str ("intake (unit " ++ g ++ ")"),
     PyVal.str "absolute"]
  let lnExhaust : List PyVal :=
    [PyVal.str ("unit_temp_exhaust_" ++ g), PyVal.str ("exhaust (unit " ++ g ++ ")"),
     PyVal.str "absolute"]
  let lnBoard : List PyVal :=
    [PyVal.str ("unit_temp_board_" ++ g), PyVal.str ("board (unit " ++ g ++ ")"),
     PyVal.str "absolute"]
  let vIntake ← dgetE data ("unit_temp_intake_" ++ g)
  let vFanS ← dgetE data ("unit_fan_speed_" ++ g)
  let vPsu ← dgetE data ("unit_psu_current_" ++ g)
  Except.ok
    { defs with
      temperature :=
        if vIntake ≠ PyVal.none then
          (addLine (addLine (addLine defs.temperature lnIntake) lnExhaust) lnBoard)
        else defs.temperature
      unit_fan := if vFanS ≠ PyVal.none then some (unitFanChart i) else defs.unit_fan
      unit_psu := if vPsu ≠ PyVal.none then some (unitPsuChart i) else defs.unit_psu }

/-- The unit loop of `check` over the listed indices. -/
def loopUnits (data : Dict) : List Nat → Definitions → Except Unit Definitions
  | [], defs => Except.ok defs
  | i :: rest, defs => do
      let defs ← addUnitLines data i defs
      loopUnits data rest defs

/-- Model of `Service.check` from line 165 on, as a function of the snapshot `data`
obtained from `_get_data`, the device/unit counts, and the current
`self.definitions` / `self.order` (module-level shared state): name
building, title suffixing, per-device line loop, then — when units are
present — the order append and the unit loop. -/
def checkOn (data : Dict) (deviceCount unitCount : Nat) (defs : Definitions)
    (order : List String) : Except Unit (Definitions × List String) := do
  let name ← buildName data (List.range deviceCount) ""
  let defs ← suffixAll defs name
  let defs ← loopDevices data (List.range deviceCount) defs
  if unitCount ≠ 0 then
    let order := order ++ ["unit_fan", "unit_psu"]
    let defs ← loopUnits data (List.range unitCount) defs
    Except.ok (defs, order)
  else
    Except.ok (defs, order)

/-!
### Characterizations used by the theorems
-/

/-- The snapshot keys written for device `i` in state `st`: the eleven
always-written keys, then — depending on whether the guarded ECC block
succeeded — either all 20 ECC keys or only the sentinel first ECC key. -/
def deviceKeys (st : DeviceState) (i : Nat) : List String :=
  let g := toString i
  ["device_name_" ++ g, "device_temp_" ++ g, "device_mem_total_" ++ g,
   "device_mem_used_" ++ g, "device_mem_free_" ++ g, "device_util_gpu_" ++ g,
   "device_util_mem_" ++ g, "device_util_pcie_tx_" ++ g, "device_util_pcie_rx_" ++ g,
   "device_fanspeed_" ++ g, "device_power_" ++ g] ++
  (match runEcc st.eccQuery with
   | some _ => eccEntries.map fun e => eccKey e.1 g
   | Option.none => ["device_ecc_errors_L1_CACHE_VOLATILE_CORRECTED_" ++ g])

/-- Keys written by the device loop from index `i0` on. -/
def devicesKeysFrom : List DeviceState → Nat → List String
  | [], _ => []
  | st :: rest, i0 => deviceKeys st i0 ++ devicesKeysFrom rest (i0 + 1)

/-- The nine snapshot keys written for unit `i` (written unconditionally). -/
def unitKeys (i : Nat) : List String :=
  let g := toString i
  ["unit_fan_speed_" ++ g, "unit_fan_state_" ++ g, "unit_psu_current_" ++ g,
   "unit_psu_power_" ++ g, "unit_psu_state_" ++ g, "unit_psu_voltage_" ++ g,
   "unit_temp_intake_" ++ g, "unit_temp_exhaust_" ++ g, "unit_temp_board_" ++ g]

/-- Keys written by the unit loop from index `i0` on. -/
def unitsKeysFrom : List UnitState → Nat → List String
  | [], _ => []
  | _ :: rest, i0 => unitKeys i0 ++ unitsKeysFrom rest (i0 + 1)

/-- All snapshot keys a `_get_data` pass writes for hardware state `nv`. -/
def writtenKeys (nv : NvmlState) : List String :=
  devicesKeysFrom nv.devices 0 ++ unitsKeysFrom nv.units 0

/-- Shape of a snapshot value: an absent (`None`) entry, an integer
scalar, or the device-name string stored under a `device_name_i` key. -/
def scalarOrName (k : String) (v : PyVal) : Prop :=
  v = PyVal.none ∨ (∃ n : Int, v = PyVal.int n) ∨
    ((∃ s : String, v = PyVal.str s) ∧ ∃ i : Nat, k = "device_name_" ++ toString i)

/-- The ECC lines the device loop of `check` contributes for the listed
devices: per device, all 20 lines when the first ECC snapshot value is
present (non-`None`), none otherwise. -/
def eccContrib (data : Dict) : List Nat → List (List PyVal)
  | [] => []
  | i :: rest =>
      (match dget data ("device_ecc_errors_L1_CACHE_VOLATILE_CORRECTED_" ++ toString i) with
       | some v => if v = PyVal.none then [] else ecc20Lines i
       | Option.none => []) ++ eccContrib data rest

/-- The memory line appended for device `i` when its used-memory snapshot
value is present. -/
def memLine (i : Nat) : List PyVal :=
  [PyVal.str ("device_mem_used_" ++ toString i), PyVal.str ("GPU:" ++ toString i),
   PyVal.str "absolute", PyVal.int 1, PyVal.int (1024 ^ 2)]

/-- The memory-chart lines the device loop contributes for the listed
devices. -/
def memContrib (data : Dict) : List Nat → List (List PyVal)
  | [] => []
  | i :: rest =>
      (match dget data ("device_mem_used_" ++ toString i) with
       | some v => if v = PyVal.none then [] else [memLine i]
       | Option.none => []) ++ memContrib data rest

/-- A whole-chart replacing fold, the update discipline of the `unit_fan`
and `unit_psu` entries in the unit loop: each listed unit whose gating
snapshot value is present replaces the accumulated chart entirely. -/
def replaceFold (data : Dict) (key : Nat → String) (chart : Nat → ChartDef) :
    List Nat → Option ChartDef → Option ChartDef
  | [], acc => acc
  | i :: rest, acc =>
      replaceFold data key chart rest
        (match dget data (key i) with
         | some v => if v = PyVal.none then acc else some (chart i)
         | Option.none => acc)

/-- Unit `i` reports the gating value under `key i` (present, non-`None`). -/
def reports (data : Dict) (key : Nat → String) (i : Nat) : Prop :=
  ∃ v, dget data (key i) = some v ∧ v ≠ PyVal.none

/-- Gating key of the `unit_fan` chart. -/
def fanKey (i : Nat) : String := "unit_fan_speed_" ++ toString i

/-- Gating key of the `unit_psu` chart. -/
def psuKey (i : Nat) : String := "unit_psu_current_" ++ toString i

/-!
### Concrete inputs used by witnesses and counterexamples
-/

/-- A legacy world whose external command is never consulted. -/
def cw0 : LegacyWorld :=
  { cmdFails := false, output := "", tempMatches := [], memMatches := [], utilMatches := [] }

/-- C1/C2/C3/C9 base device: every query succeeds. -/
def okDev : DeviceState :=
  { name := "Tesla K80", memoryInfo := some { total := 8000000, used := 2000000, free := 6000000 },
    eccQuery := fun _ _ _ => some 0, temperature := some 55, fanSpeed := some 30,
    powerUsage := some 120000, utilization := some { gpu := 17, memory := 9 },
    pcieTx := some 100, pcieRx := some 200 }

/-- C1: the memory query raises, every other query succeeds. -/
def c1nv : NvmlState := { devices := [{ okDev with memoryInfo := Option.none }], units := [] }

/-- C2: the ECC queries raise, every other query succeeds. -/
def c2nv : NvmlState :=
  { devices := [{ okDev with eccQuery := fun _ _ _ => Option.none }], units := [] }

/-- The snapshot `_get_data` returns for `c2nv`. -/
def c2dict : Dict :=
  match getData c2nv false cw0 with
  | Except.ok (d, _) => d
  | Except.error _ => []

/-- C3: an ECC counter query map giving every (error class, volatility,
location) triple the distinct value `4*loc + 2*ctr + err`. -/
def c3q : Nat → Nat → Nat → Option Int :=
  fun e c l => some ((4 * l + 2 * c + e : Nat) : Int)

/-- C3: every ECC counter query succeeds with the value of `c3q`, so all
20 per-triple counters are pairwise distinguishable. -/
def c3nv : NvmlState :=
  { devices := [{ okDev with eccQuery := c3q }], units := [] }

/-- The snapshot `_get_data` returns for `c3nv`. -/
def c3dict : Dict :=
  match getData c3nv false cw0 with
  | Except.ok (d, _) => d
  | Except.error _ => []

/-- C4: an initialization snapshot for one device with ECC present. -/
def c4data : Dict :=
  [("device_name_0", PyVal.str "Tesla K80"), ("device_mem_used_0", PyVal.int 2000000),
   ("device_util_gpu_0", PyVal.int 17), ("device_util_pcie_tx_0", PyVal.none),
   ("device_ecc_errors_L1_CACHE_VOLATILE_CORRECTED_0", PyVal.int 7),
   ("device_temp_0", PyVal.int 55), ("device_fanspeed_0", PyVal.none),
   ("device_power_0", PyVal.int 120000)]

/-- C5: an initialization snapshot for one device, all gated values
present. -/
def c5data : Dict :=
  [("device_name_0", PyVal.str "GeForce GTX 760"), ("device_mem_used_0", PyVal.int 1000),
   ("device_util_gpu_0", PyVal.int 5), ("device_util_pcie_tx_0", PyVal.int 8),
   ("device_ecc_errors_L1_CACHE_VOLATILE_CORRECTED_0", PyVal.none),
   ("device_temp_0", PyVal.int 40), ("device_fanspeed_0", PyVal.int 20),
   ("device_power_0", PyVal.int 90000)]

/-- The definitions after the first `check` run on `c5data`. -/
def c5run1 : Definitions :=
  match checkOn c5data 1 0 initialDefinitions ORDER with
  | Except.ok (d, _) => d
  | Except.error _ => initialDefinitions

/-- The definitions after the second `check` run on `c5data`. -/
def c5run2 : Definitions :=
  match checkOn c5data 1 0 initialDefinitions ORDER with
  | Except.ok (d1, o1) =>
      (match checkOn c5data 1 0 d1 o1 with
       | Except.ok (d2, _) => d2
       | Except.error _ => initialDefinitions)
  | Except.error _ => initialDefinitions

/-- C6: a snapshot whose temperature is already present. -/
def c6data : Dict :=
  [("device_temp_0", PyVal.int 55), ("device_mem_used_0", PyVal.none),
   ("device_util_gpu_0", PyVal.none), ("device_util_mem_0", PyVal.none)]

/-- C6: a legacy world whose extraction would yield a different
temperature (99) than the present primary value (55). -/
def c6w : LegacyWorld :=
  { cmdFails := false, output := "", tempMatches := ["99"], memMatches := ["123"],
    utilMatches := [("44", "66")] }

/-- The dictionary after the legacy pass over `c6data` with `c6w`. -/
def c6res : Dict :=
  match legacyLoop c6w [0] c6data with
  | Except.ok d => d
  | Except.error _ => []

/-- The definitions `check` builds from `c4data` (one device, no units). -/
def c4defs : Definitions :=
  match checkOn c4data 1 0 initialDefinitions ORDER with
  | Except.ok (d, _) => d
  | Except.error _ => initialDefinitions

/-- C7: hardware with no devices and no units. -/
def c7nv : NvmlState := { devices := [], units := [] }

/-- C7: the external command returns implausibly short output. -/
def c7w : LegacyWorld :=
  { cmdFails := false, output := "tiny", tempMatches := [], memMatches := [],
    utilMatches := [] }

/-- C8: one device whose temperature query raised (so the legacy pass will
try to backfill it), everything else fine. -/
def c8nv : NvmlState := { devices := [{ okDev with temperature := Option.none }], units := [] }

/-- C8: the command output is long enough, but the temperature pattern
matched nothing, so `findall(...)[0]` raises `IndexError`. -/
def c8w : LegacyWorld :=
  { cmdFails := false, output := String.mk (List.replicate 800 'a'), tempMatches := [],
    memMatches := ["123"], utilMatches := [("44", "66")] }

/-- C8 witness world: the temperature capture is non-numeric, the memory
capture is numeric. -/
def c8wGood : LegacyWorld :=
  { cmdFails := false, output := String.mk (List.replicate 800 'a'), tempMatches := ["abc"],
    memMatches := ["123"], utilMatches := [("44", "66")] }

/-- C8 witness snapshot: all four legacy-recoverable fields absent. -/
def c8data : Dict :=
  [("device_temp_0", PyVal.none), ("device_mem_used_0", PyVal.none),
   ("device_util_gpu_0", PyVal.none), ("device_util_mem_0", PyVal.none)]

/-- C9: one fully healthy device. -/
def c9nv : NvmlState := { devices := [okDev], units := [] }

/-- The snapshot `_get_data` returns for `c9nv`. -/
def c9dict : Dict :=
  match getData c9nv false cw0 with
  | Except.ok (d, _) => d
  | Except.error _ => []

/-- C10: an initialization snapshot with two units: unit 0 reports fan
speed and PSU current, unit 1 reports only fan speed. -/
def c10data : Dict :=
  [("unit_temp_intake_0", PyVal.none), ("unit_fan_speed_0", PyVal.int 3000),
   ("unit_psu_current_0", PyVal.int 20), ("unit_temp_intake_1", PyVal.none),
   ("unit_fan_speed_1", PyVal.int 2500), ("unit_psu_current_1", PyVal.none)]

/-- The definitions `check` builds from `c10data` (no devices, two units). -/
def c10defs : Definitions :=
  match checkOn c10data 0 2 initialDefinitions ORDER with
  | Except.ok (d, _) => d
  | Except.error _ => initialDefinitions

/-!
### Basic dictionary lemmas
-/

theorem dget_dset (d : Dict) (k k' : String) (v : PyVal) :
    dget (dset d k v) k' = if k = k' then some v else dget d k' := by
  induction d with
  | nil => simp [dset, dget]
  | cons hd tl ih =>
    obtain ⟨kh, vh⟩ := hd
    by_cases h1 : kh = k
    · subst h1
      by_cases h2 : kh = k' <;> simp [dset, dget, h2]
    · by_cases h2 : kh = k'
      · subst h2
        have : ¬ k = kh := fun h => h1 h.symm
        simp [dset, dget, h1, this]
      · simp [dset, dget, h1, h2, ih]

theorem dget_dset_same (d : Dict) (k : String) (v : PyVal) :
    dget (dset d k v) k = some v := by
  simp [dget_dset]

theorem dget_dset_ne (d : Dict) (k k' : String) (v : PyVal) (h : k ≠ k') :
    dget (dset d k v) k' = dget d k' := by
  simp [dget_dset, h]

theorem isSome_dget_dset_iff (d : Dict) (k k' : String) (v : PyVal) :
    (dget (dset d k v) k').isSome ↔ k' = k ∨ (dget d k').isSome := by
  rw [dget_dset]
  by_cases hk : k = k'
  · subst hk
    simp
  · have hk' : ¬ k' = k := fun h => hk h.symm
    simp [hk, hk']

theorem dkeys_dset (d : Dict) (k : String) (v : PyVal) :
    dkeys (dset d k v) = if k ∈ dkeys d then dkeys d else dkeys d ++ [k] := by
  induction d with
  | nil => simp [dset, dkeys]
  | cons hd tl ih =>
    obtain ⟨kh, vh⟩ := hd
    by_cases h1 : kh = k
    · subst h1
      simp [dset, dkeys]
    · have h1' : ¬ k = kh := fun h => h1 h.symm
      simp only [dset, if_neg h1, dkeys, List.map_cons]
      simp only [dkeys] at ih
      rw [ih]
      by_cases h2 : k ∈ List.map Prod.fst tl <;>
        simp [h2, h1', List.mem_cons]

theorem nodup_dkeys_dset (d : Dict) (k : String) (v : PyVal)
    (h : (dkeys d).Nodup) : (dkeys (dset d k v)).Nodup := by
  rw [dkeys_dset]
  by_cases hk : k ∈ dkeys d
  · simpa [hk] using h
  · simpa [hk, List.nodup_append] using h

/-- Two strings with a differing character inside both constant parts stay
different under arbitrary (equal or unequal) appended suffixes. -/
theorem append_ne_of_diff (p q x y : String) (j : Nat)
    (hp : j < p.data.length) (hq : j < q.data.length)
    (hne : p.data[j]? ≠ q.data[j]?) : p ++ x ≠ q ++ y := by
  intro h
  apply hne
  have hdata : (p ++ x).data = (q ++ y).data := congrArg String.data h
  rw [String.data_append, String.data_append] at hdata
  have := congrArg (fun l => l[j]?) hdata
  simpa [List.getElem?_append_left hp, List.getElem?_append_left hq] using this

/-!
### C1: a memory-query failure aborts the whole collection pass
-/

/-- C1 (code bug): the claim says a library-level failure of the memory
query is converted to an absent value and `_get_data` still returns a
snapshot.  In the code the `except` branch sets `mem = None` (line 270)
but the packing phase then evaluates `mem.total` (line 339), raising an
uncaught `AttributeError`: with one device whose memory query fails and
every other query succeeding, `_get_data` aborts instead of returning a
snapshot. -/
theorem C1_memory_failure_aborts_pass :
    getData c1nv false cw0 = Except.error () := rfl

/-!
### C3: the ECC matrix stores aliased, repeated values
-/

/-- C3 (code bug): the claim says each of the 20 ECC snapshot entries
equals the counter of its own (location, volatility, error-class) triple.
Because `_memError` and `_eccCounter` are created once outside the 5x2x2
loop (lines 274-275), every entry aliases the dicts of the last iteration:
with the counter for triple `(err, ctr, loc)` equal to `4*loc + 2*ctr +
err`, the `L1_CACHE/VOLATILE/CORRECTED` entry — whose own counter is 0 —
and the `L2_CACHE/AGGREGATE/CORRECTED` entry both hold 18 (= the counter
of `TEXTURE_MEMORY/AGGREGATE/CORRECTED`), and every `UNCORRECTED` entry
holds 19. -/
theorem C3_ecc_entries_alias_last_iteration :
    dget c3dict "device_ecc_errors_L1_CACHE_VOLATILE_CORRECTED_0" = some (PyVal.int 18) ∧
    dget c3dict "device_ecc_errors_L2_CACHE_AGGREGATE_CORRECTED_0" = some (PyVal.int 18) ∧
    dget c3dict "device_ecc_errors_L1_CACHE_VOLATILE_UNCORRECTED_0" = some (PyVal.int 19) ∧
    (c3q 0 0 0 = some 0 ∧ c3q 0 1 4 = some 18) :=
  ⟨rfl, rfl, rfl, rfl, rfl⟩

/-!
### C7: short legacy output disables legacy mode stickily
-/

/-- C7 (confirmed): when legacy mode is enabled and the captured command
output is below the 800-byte threshold, the raise at line 473 is caught,
`self.legacy` is set to `False`, and the pass returns exactly the
primary-adapter snapshot (lines 472-479); and once `self.legacy` is
`False`, every subsequent pass skips the legacy block entirely and keeps
it `False` — nothing ever re-enables it. -/
theorem except_bind_ok {α β : Type} (a : α) (f : α → Except Unit β) :
    (Except.ok a >>= f) = f a := rfl

theorem C7_short_output_sticky_downgrade (nv : NvmlState) (w : LegacyWorld) (d : Dict)
    (hprim : getDataPrimary nv = Except.ok d) (hshort : w.output.length < 800) :
    getData nv true w = Except.ok (d, false) ∧
    ∀ w2 : LegacyWorld, getData nv false w2 = Except.ok (d, false) := by
  constructor
  · unfold getData
    rw [hprim, except_bind_ok]
    simp [hshort]
  · intro w2
    unfold getData
    rw [hprim, except_bind_ok]
    simp

/-- C7 witness: no devices/units, output "tiny" (4 bytes): the pass
returns the empty primary snapshot with legacy off, and a later pass with
legacy off returns the same. -/
theorem C7_short_output_sticky_downgrade_witness :
    getData c7nv true c7w = Except.ok ([], false) ∧
    getData c7nv false cw0 = Except.ok ([], false) :=
  ⟨(C7_short_output_sticky_downgrade c7nv c7w [] rfl (by decide)).1,
   (C7_short_output_sticky_downgrade c7nv c7w [] rfl (by decide)).2 cw0⟩

/-!
### C6: the legacy pass never overwrites a present value
-/

theorem except_bind_error {α β : Type} (e : Unit) (f : α → Except Unit β) :
    (Except.error e >>= f) = Except.error e := rfl

/-- One legacy field extraction leaves every present, non-`None` entry
unchanged: it writes its key only when that key currently holds `None`. -/
theorem legacyField_preserves (d : Dict) (key : String) (cap : Option String) (d' : Dict)
    (k : String) (v : PyVal) (hv : dget d k = some v) (hne : v ≠ PyVal.none)
    (h : legacyField d key cap = Except.ok d') : dget d' k = some v := by
  unfold legacyField at h
  split at h
  · cases h
  · rename_i hkey
    split at h
    · cases h
    · split at h
      · rename_i s hcap n hint
        have hkk : key ≠ k := by
          intro he
          subst he
          rw [hv] at hkey
          cases hkey
          exact hne rfl
        cases h
        rw [dget_dset_ne _ _ _ _ hkk]
        exact hv
      · cases h
        exact hv
  · cases h
    exact hv

/-- The four-field legacy body for one device preserves present values. -/
theorem legacyDevice_preserves (w : LegacyWorld) (i : Nat) (d d' : Dict)
    (k : String) (v : PyVal) (hv : dget d k = some v) (hne : v ≠ PyVal.none)
    (h : legacyDevice w i d = Except.ok d') : dget d' k = some v := by
  simp only [legacyDevice] at h
  cases h1 : legacyField d ("device_temp_" ++ toString i) w.tempMatches[i]? with
  | error e => rw [h1, except_bind_error] at h; cases h
  | ok d1 =>
    rw [h1, except_bind_ok] at h
    have hv1 := legacyField_preserves _ _ _ _ _ _ hv hne h1
    cases h2 : legacyField d1 ("device_mem_used_" ++ toString i) w.memMatches[i]? with
    | error e => rw [h2, except_bind_error] at h; cases h
    | ok d2 =>
      rw [h2, except_bind_ok] at h
      have hv2 := legacyField_preserves _ _ _ _ _ _ hv1 hne h2
      cases h3 : legacyField d2 ("device_util_gpu_" ++ toString i)
          ((w.utilMatches[i]?).map Prod.fst) with
      | error e => rw [h3, except_bind_error] at h; cases h
      | ok d3 =>
        rw [h3, except_bind_ok] at h
        have hv3 := legacyField_preserves _ _ _ _ _ _ hv2 hne h3
        exact legacyField_preserves _ _ _ _ _ _ hv3 hne h

/-- C6 (confirmed): the legacy loop (lines 480-509) leaves every entry
that is already present with a non-`None` value unchanged, whatever its
own extraction would have produced — in particular the four
legacy-recoverable keys `device_temp_i`, `device_mem_used_i`,
`device_util_gpu_i`, `device_util_mem_i`: every write is guarded by
`if data[key] is None`. -/
theorem C6_legacy_never_overwrites_present (w : LegacyWorld) (l : List Nat) (d d' : Dict)
    (k : String) (v : PyVal) (hv : dget d k = some v) (hne : v ≠ PyVal.none)
    (h : legacyLoop w l d = Except.ok d') : dget d' k = some v := by
  induction l generalizing d with
  | nil =>
    unfold legacyLoop at h
    cases h
    exact hv
  | cons i rest ih =>
    unfold legacyLoop at h
    cases h1 : legacyDevice w i d with
    | error e => rw [h1, except_bind_error] at h; cases h
    | ok d1 =>
      rw [h1, except_bind_ok] at h
      exact ih d1 (legacyDevice_preserves _ _ _ _ _ _ hv hne h1) h

/-- C6 witness: with `device_temp_0` present as 55 and a legacy world that
would extract 99 for it, the pass succeeds and the value stays 55 (the
legacy extractions for the other, absent fields do fire). -/
theorem C6_legacy_never_overwrites_present_witness :
    dget c6res "device_temp_0" = some (PyVal.int 55) ∧
    dget c6res "device_util_gpu_0" = some (PyVal.int 44) :=
  ⟨C6_legacy_never_overwrites_present c6w [0] c6data c6res "device_temp_0" (PyVal.int 55)
      rfl (by decide) (by rfl),
   by rfl⟩

/-!
### C8: per-field tolerance in the legacy pass
-/

/-- One legacy field succeeds whenever its key is present and — if the
current value is `None` — a capture exists for it; it changes no other
key and keeps its own key present. -/
theorem legacyField_ok_of (d : Dict) (key : String) (cap : Option String)
    (hk : (dget d key).isSome)
    (hcap : dget d key = some PyVal.none → cap.isSome) :
    ∃ d', legacyField d key cap = Except.ok d' ∧
      (∀ k', k' ≠ key → dget d' k' = dget d k') ∧ (dget d' key).isSome := by
  cases hv : dget d key with
  | none => rw [hv] at hk; cases hk
  | some v =>
    cases v with
    | none =>
      cases hc : cap with
      | none =>
        have := hcap hv
        rw [hc] at this
        cases this
      | some s =>
        cases hi : pyInt s with
        | none =>
          refine ⟨d, ?_, fun k' _ => rfl, hk⟩
          simp [legacyField, hv, hc, hi]
        | some n =>
          refine ⟨dset d key (PyVal.int n), ?_, ?_, ?_⟩
          · simp [legacyField, hv, hc, hi]
          · intro k' hne
            exact dget_dset_ne _ _ _ _ fun h => hne h.symm
          · rw [dget_dset_same]
            rfl
    | int n =>
      refine ⟨d, ?_, fun k' _ => rfl, hk⟩
      simp [legacyField, hv]
    | str s =>
      refine ⟨d, ?_, fun k' _ => rfl, hk⟩
      simp [legacyField, hv]

/-- C8 (amended): inside one device's legacy pass, a non-numeric capture
is tolerated field-locally — the `int()` conversion failure is caught at
lines 487-488, the field keeps its absent value, and the remaining fields
of the same device are still attempted (here: the memory field is filled
from its own capture).  (The original claim also asserted tolerance of
pattern-match failures; `C8_counterexample_pattern_miss_aborts` shows
those abort the pass instead, because the `findall(...)[i]` indexing at
line 483 sits outside the `try`.) -/
theorem C8_amended_nonnumeric_capture_tolerated (w : LegacyWorld) (i : Nat) (d : Dict)
    (st sm : String) (vm : Int) (pu : String × String)
    (ht : dget d ("device_temp_" ++ toString i) = some PyVal.none)
    (hm : dget d ("device_mem_used_" ++ toString i) = some PyVal.none)
    (hg : (dget d ("device_util_gpu_" ++ toString i)).isSome)
    (hu : (dget d ("device_util_mem_" ++ toString i)).isSome)
    (hcapT : w.tempMatches[i]? = some st) (hTfail : pyInt st = Option.none)
    (hcapM : w.memMatches[i]? = some sm) (hMok : pyInt sm = some vm)
    (hcapU : w.utilMatches[i]? = some pu) :
    ∃ d', legacyDevice w i d = Except.ok d' ∧
      dget d' ("device_temp_" ++ toString i) = some PyVal.none ∧
      dget d' ("device_mem_used_" ++ toString i) = some (PyVal.int vm) := by
  have hMG : ("device_mem_used_" ++ toString i) ≠ ("device_util_gpu_" ++ toString i) :=
    append_ne_of_diff _ _ _ _ 7 (by decide) (by decide) (by decide)
  have hMU : ("device_mem_used_" ++ toString i) ≠ ("device_util_mem_" ++ toString i) :=
    append_ne_of_diff _ _ _ _ 7 (by decide) (by decide) (by decide)
  have hUG : ("device_util_mem_" ++ toString i) ≠ ("device_util_gpu_" ++ toString i) :=
    append_ne_of_diff _ _ _ _ 12 (by decide) (by decide) (by decide)
  have hTG : ("device_temp_" ++ toString i) ≠ ("device_util_gpu_" ++ toString i) :=
    append_ne_of_diff _ _ _ _ 7 (by decide) (by decide) (by decide)
  have hTU : ("device_temp_" ++ toString i) ≠ ("device_util_mem_" ++ toString i) :=
    append_ne_of_diff _ _ _ _ 7 (by decide) (by decide) (by decide)
  have hMT : ("device_mem_used_" ++ toString i) ≠ ("device_temp_" ++ toString i) :=
    append_ne_of_diff _ _ _ _ 7 (by decide) (by decide) (by decide)
  have h1 : legacyField d ("device_temp_" ++ toString i) w.tempMatches[i]? = Except.ok d := by
    simp [legacyField, ht, hcapT, hTfail]
  set d2 := dset d ("device_mem_used_" ++ toString i) (PyVal.int vm) with hd2
  have h2 : legacyField d ("device_mem_used_" ++ toString i) w.memMatches[i]? =
      Except.ok d2 := by
    simp [legacyField, hm, hcapM, hMok, hd2]
  have hk3 : (dget d2 ("device_util_gpu_" ++ toString i)).isSome := by
    rw [hd2, dget_dset_ne _ _ _ _ hMG]
    exact hg
  obtain ⟨d3, h3, h3frame, h3some⟩ :=
    legacyField_ok_of d2 ("device_util_gpu_" ++ toString i)
      ((w.utilMatches[i]?).map Prod.fst) hk3
      (fun _ => by simp [hcapU])
  have hk4 : (dget d3 ("device_util_mem_" ++ toString i)).isSome := by
    rw [h3frame _ hUG, hd2, dget_dset_ne _ _ _ _ hMU]
    exact hu
  obtain ⟨d4, h4, h4frame, _⟩ :=
    legacyField_ok_of d3 ("device_util_mem_" ++ toString i)
      ((w.utilMatches[i]?).map Prod.snd) hk4
      (fun _ => by simp [hcapU])
  refine ⟨d4, ?_, ?_, ?_⟩
  · simp only [legacyDevice]
    rw [h1, except_bind_ok, h2, except_bind_ok, h3, except_bind_ok, h4]
  · rw [h4frame _ hTU, h3frame _ hTG, hd2, dget_dset_ne _ _ _ _ hMT]
    exact ht
  · rw [h4frame _ hMU, h3frame _ hMG, hd2, dget_dset_same]

/-- C8 witness: device 0, all four fields absent, temperature capture
"abc" (non-numeric), memory capture "123": the device pass succeeds,
the temperature stays absent, the memory field becomes 123. -/
theorem C8_amended_nonnumeric_capture_tolerated_witness :
    ∃ d', legacyDevice c8wGood 0 c8data = Except.ok d' ∧
      dget d' ("device_temp_" ++ toString 0) = some PyVal.none ∧
      dget d' ("device_mem_used_" ++ toString 0) = some (PyVal.int 123) :=
  C8_amended_nonnumeric_capture_tolerated c8wGood 0 c8data "abc" "123" 123 ("44", "66")
    (by rfl) (by rfl) (by rfl) (by rfl) rfl (by rfl) rfl (by rfl) rfl

set_option maxRecDepth 8000 in
/-- C8 counterexample: the claim as stated says a pattern-match failure
(no match for the device index) only leaves that field absent and the
pass still returns a snapshot.  With one device whose primary temperature
is absent, a healthy long command output, and a temperature pattern that
matched nothing, `findall(...)[0]` raises an uncaught `IndexError` and
the whole `_get_data` call aborts. -/
theorem C8_counterexample_pattern_miss_aborts :
    getData c8nv true c8w = Except.error () := by rfl

/-!
### C2: the exact key domain of a snapshot
-/

/-- Packing a list of ECC entries adds exactly their snapshot keys. -/
theorem eccPackAux_domain (l : List (String × String × String × String)) (h : EccHeap)
    (g : String) (d d' : Dict) (hok : eccPackAux h g l d = Except.ok d') (k : String) :
    (dget d' k).isSome ↔ k ∈ l.map (fun e => eccKey e.1 g) ∨ (dget d k).isSome := by
  induction l generalizing d with
  | nil =>
    unfold eccPackAux at hok
    cases hok
    simp
  | cons e rest ih =>
    obtain ⟨kn, loc, ctr, err⟩ := e
    unfold eccPackAux at hok
    split at hok
    · have := ih _ hok
      rw [this, isSome_dget_dset_iff]
      simp [or_assoc, or_comm, or_left_comm]
    · cases hok

/-- The device pack step adds exactly the keys of `deviceKeys`. -/
theorem packDevice_domain (st : DeviceState) (i : Nat) (d d' : Dict)
    (h : packDevice st i d = Except.ok d') (k : String) :
    (dget d' k).isSome ↔ k ∈ deviceKeys st i ∨ (dget d k).isSome := by
  simp only [packDevice] at h
  split at h
  · cases h
  · rename_i m hm
    split at h
    · rename_i hp heq
      rw [eccPack] at h
      rw [eccPackAux_domain _ _ _ _ _ h k]
      simp only [isSome_dget_dset_iff, deviceKeys, heq, List.mem_append, List.mem_cons,
        List.mem_singleton, List.not_mem_nil, or_false]
      tauto
    · rename_i heq
      cases h
      simp only [isSome_dget_dset_iff, deviceKeys, heq, List.mem_append, List.mem_cons,
        List.mem_singleton, List.not_mem_nil, or_false]
      tauto

/-- The device loop adds exactly the keys of `devicesKeysFrom`. -/
theorem packDevices_domain (devs : List DeviceState) (i0 : Nat) (d d' : Dict)
    (h : packDevices devs i0 d = Except.ok d') (k : String) :
    (dget d' k).isSome ↔ k ∈ devicesKeysFrom devs i0 ∨ (dget d k).isSome := by
  induction devs generalizing i0 d with
  | nil =>
    unfold packDevices at h
    cases h
    simp [devicesKeysFrom]
  | cons st rest ih =>
    unfold packDevices at h
    cases h1 : packDevice st i0 d with
    | error e => rw [h1, except_bind_error] at h; cases h
    | ok d1 =>
      rw [h1, except_bind_ok] at h
      rw [ih _ _ h, packDevice_domain _ _ _ _ h1 k]
      simp only [devicesKeysFrom, List.mem_append, or_assoc]
      tauto

/-- The unit pack step adds exactly the keys of `unitKeys`. -/
theorem packUnit_domain (st : UnitState) (i : Nat) (d : Dict) (k : String) :
    (dget (packUnit st i d) k).isSome ↔ k ∈ unitKeys i ∨ (dget d k).isSome := by
  simp only [packUnit]
  simp only [isSome_dget_dset_iff]
  simp [unitKeys, List.mem_cons]
  tauto

/-- The unit loop adds exactly the keys of `unitsKeysFrom`. -/
theorem packUnits_domain (us : List UnitState) (i0 : Nat) (d : Dict) (k : String) :
    (dget (packUnits us i0 d) k).isSome ↔ k ∈ unitsKeysFrom us i0 ∨ (dget d k).isSome := by
  induction us generalizing i0 d with
  | nil => simp [packUnits, unitsKeysFrom]
  | cons st rest ih =>
    simp only [packUnits]
    rw [ih, packUnit_domain]
    simp only [unitsKeysFrom, List.mem_append, or_assoc]
    tauto

/-- One legacy field extraction never adds or removes a key. -/
theorem legacyField_domain (d : Dict) (key : String) (cap : Option String) (d' : Dict)
    (h : legacyField d key cap = Except.ok d') (k : String) :
    (dget d' k).isSome ↔ (dget d k).isSome := by
  unfold legacyField at h
  split at h
  · cases h
  · rename_i hkey
    split at h
    · cases h
    · split at h
      · cases h
        rw [isSome_dget_dset_iff]
        constructor
        · rintro (rfl | hs)
          · rw [hkey]; rfl
          · exact hs
        · intro hs
          exact Or.inr hs
      · cases h
        rfl
  · cases h
    rfl

/-- The per-device legacy body never adds or removes a key. -/
theorem legacyDevice_domain (w : LegacyWorld) (i : Nat) (d d' : Dict)
    (h : legacyDevice w i d = Except.ok d') (k : String) :
    (dget d' k).isSome ↔ (dget d k).isSome := by
  simp only [legacyDevice] at h
  cases h1 : legacyField d ("device_temp_" ++ toString i) w.tempMatches[i]? with
  | error e => rw [h1, except_bind_error] at h; cases h
  | ok d1 =>
    rw [h1, except_bind_ok] at h
    cases h2 : legacyField d1 ("device_mem_used_" ++ toString i) w.memMatches[i]? with
    | error e => rw [h2, except_bind_error] at h; cases h
    | ok d2 =>
      rw [h2, except_bind_ok] at h
      cases h3 : legacyField d2 ("device_util_gpu_" ++ toString i)
          ((w.utilMatches[i]?).map Prod.fst) with
      | error e => rw [h3, except_bind_error] at h; cases h
      | ok d3 =>
        rw [h3, except_bind_ok] at h
        rw [legacyField_domain _ _ _ _ h k, legacyField_domain _ _ _ _ h3 k,
          legacyField_domain _ _ _ _ h2 k, legacyField_domain _ _ _ _ h1 k]

/-- The legacy loop never adds or removes a key. -/
theorem legacyLoop_domain (w : LegacyWorld) (l : List Nat) (d d' : Dict)
    (h : legacyLoop w l d = Except.ok d') (k : String) :
    (dget d' k).isSome ↔ (dget d k).isSome := by
  induction l generalizing d with
  | nil =>
    unfold legacyLoop at h
    cases h
    rfl
  | cons i rest ih =>
    unfold legacyLoop at h
    cases h1 : legacyDevice w i d with
    | error e => rw [h1, except_bind_error] at h; cases h
    | ok d1 =>
      rw [h1, except_bind_ok] at h
      rw [ih _ h, legacyDevice_domain _ _ _ _ h1 k]

/-- ECC packing keeps the key list duplicate-free. -/
theorem eccPackAux_nodup (l : List (String × String × String × String)) (h : EccHeap)
    (g : String) (d d' : Dict) (hok : eccPackAux h g l d = Except.ok d')
    (hnd : (dkeys d).Nodup) : (dkeys d').Nodup := by
  induction l generalizing d with
  | nil =>
    unfold eccPackAux at hok
    cases hok
    exact hnd
  | cons e rest ih =>
    obtain ⟨kn, loc, ctr, err⟩ := e
    unfold eccPackAux at hok
    split at hok
    · exact ih _ hok (nodup_dkeys_dset _ _ _ hnd)
    · cases hok

/-- The device pack step keeps the key list duplicate-free. -/
theorem packDevice_nodup (st : DeviceState) (i : Nat) (d d' : Dict)
    (h : packDevice st i d = Except.ok d') (hnd : (dkeys d).Nodup) : (dkeys d').Nodup := by
  simp only [packDevice] at h
  split at h
  · cases h
  · split at h
    · rw [eccPack] at h
      apply eccPackAux_nodup _ _ _ _ _ h
      iterate 11 apply nodup_dkeys_dset
      exact hnd
    · cases h
      iterate 12 apply nodup_dkeys_dset
      exact hnd

/-- The device loop keeps the key list duplicate-free. -/
theorem packDevices_nodup (devs : List DeviceState) (i0 : Nat) (d d' : Dict)
    (h : packDevices devs i0 d = Except.ok d') (hnd : (dkeys d).Nodup) :
    (dkeys d').Nodup := by
  induction devs generalizing i0 d with
  | nil =>
    unfold packDevices at h
    cases h
    exact hnd
  | cons st rest ih =>
    unfold packDevices at h
    cases h1 : packDevice st i0 d with
    | error e => rw [h1, except_bind_error] at h; cases h
    | ok d1 =>
      rw [h1, except_bind_ok] at h
      exact ih _ _ h (packDevice_nodup _ _ _ _ h1 hnd)

/-- The unit loop keeps the key list duplicate-free. -/
theorem packUnits_nodup (us : List UnitState) (i0 : Nat) (d : Dict)
    (hnd : (dkeys d).Nodup) : (dkeys (packUnits us i0 d)).Nodup := by
  induction us generalizing i0 d with
  | nil => exact hnd
  | cons st rest ih =>
    simp only [packUnits]
    apply ih
    simp only [packUnit]
    iterate 9 apply nodup_dkeys_dset
    exact hnd

/-- One legacy field extraction keeps the key list duplicate-free. -/
theorem legacyField_nodup (d : Dict) (key : String) (cap : Option String) (d' : Dict)
    (h : legacyField d key cap = Except.ok d') (hnd : (dkeys d).Nodup) :
    (dkeys d').Nodup := by
  unfold legacyField at h
  split at h
  · cases h
  · split at h
    · cases h
    · split at h
      · cases h
        exact nodup_dkeys_dset _ _ _ hnd
      · cases h
        exact hnd
  · cases h
    exact hnd

/-- The per-device legacy body keeps the key list duplicate-free. -/
theorem legacyDevice_nodup (w : LegacyWorld) (i : Nat) (d d' : Dict)
    (h : legacyDevice w i d = Except.ok d') (hnd : (dkeys d).Nodup) : (dkeys d').Nodup := by
  simp only [legacyDevice] at h
  cases h1 : legacyField d ("device_temp_" ++ toString i) w.tempMatches[i]? with
  | error e => rw [h1, except_bind_error] at h; cases h
  | ok d1 =>
    rw [h1, except_bind_ok] at h
    cases h2 : legacyField d1 ("device_mem_used_" ++ toString i) w.memMatches[i]? with
    | error e => rw [h2, except_bind_error] at h; cases h
    | ok d2 =>
      rw [h2, except_bind_ok] at h
      cases h3 : legacyField d2 ("device_util_gpu_" ++ toString i)
          ((w.utilMatches[i]?).map Prod.fst) with
      | error e => rw [h3, except_bind_error] at h; cases h
      | ok d3 =>
        rw [h3, except_bind_ok] at h
        exact legacyField_nodup _ _ _ _ h
          (legacyField_nodup _ _ _ _ h3
            (legacyField_nodup _ _ _ _ h2 (legacyField_nodup _ _ _ _ h1 hnd)))

/-- The legacy loop keeps the key list duplicate-free. -/
theorem legacyLoop_nodup (w : LegacyWorld) (l : List Nat) (d d' : Dict)
    (h : legacyLoop w l d = Except.ok d') (hnd : (dkeys d).Nodup) : (dkeys d').Nodup := by
  induction l generalizing d with
  | nil =>
    unfold legacyLoop at h
    cases h
    exact hnd
  | cons i rest ih =>
    unfold legacyLoop at h
    cases h1 : legacyDevice w i d with
    | error e => rw [h1, except_bind_error] at h; cases h
    | ok d1 =>
      rw [h1, except_bind_ok] at h
      exact ih _ h (legacyDevice_nodup _ _ _ _ h1 hnd)

/-- C2 (amended): every snapshot `_get_data` returns holds exactly one
entry per key of `writtenKeys` — per device the eleven non-ECC keys plus,
when the guarded ECC block succeeded, all 20 ECC keys, but when it failed
only the sentinel first ECC key (line 389); per unit the nine unit keys —
and no other key; the key list is duplicate-free, so each key has exactly
one entry.  The original claim asserted all 20 ECC keys are present (as
absent) after an ECC failure; `C2_counterexample_ecc_keys_missing` shows
the other 19 are missing from the mapping entirely. -/
theorem C2_amended_snapshot_key_domain (nv : NvmlState) (legacy : Bool) (w : LegacyWorld)
    (d : Dict) (b : Bool) (h : getData nv legacy w = Except.ok (d, b)) :
    (∀ k, (dget d k).isSome ↔ k ∈ writtenKeys nv) ∧ (dkeys d).Nodup := by
  unfold getData at h
  cases hp : getDataPrimary nv with
  | error e => rw [hp, except_bind_error] at h; cases h
  | ok d0 =>
    rw [hp, except_bind_ok] at h
    have hdom0 : ∀ k, (dget d0 k).isSome ↔ k ∈ writtenKeys nv := by
      unfold getDataPrimary at hp
      cases hq : packDevices nv.devices 0 [] with
      | error e => rw [hq, except_bind_error] at hp; cases hp
      | ok dp =>
        rw [hq, except_bind_ok] at hp
        cases hp
        intro k
        rw [packUnits_domain, packDevices_domain _ _ _ _ hq k]
        simp only [writtenKeys, List.mem_append, dget, Option.isSome_none, Bool.false_eq_true,
          or_false]
        tauto
    have hnd0 : (dkeys d0).Nodup := by
      unfold getDataPrimary at hp
      cases hq : packDevices nv.devices 0 [] with
      | error e => rw [hq, except_bind_error] at hp; cases hp
      | ok dp =>
        rw [hq, except_bind_ok] at hp
        cases hp
        exact packUnits_nodup _ _ _ (packDevices_nodup _ _ _ _ hq (by simp [dkeys]))
    split at h
    · split at h
      · cases h
        exact ⟨hdom0, hnd0⟩
      · split at h
        · rename_i d2 hll
          cases h
          refine ⟨fun k => ?_, legacyLoop_nodup _ _ _ _ hll hnd0⟩
          rw [legacyLoop_domain _ _ _ _ hll k]
          exact hdom0 k
        · cases h
    · cases h
      exact ⟨hdom0, hnd0⟩

/-- C2 witness: for the concrete ECC-failed device of `c2nv`, the key
domain equivalence instantiated at a missing ECC key and at an
always-present key. -/
theorem C2_amended_snapshot_key_domain_witness :
    ((dget c2dict "device_ecc_errors_L1_CACHE_VOLATILE_UNCORRECTED_0").isSome ↔
      "device_ecc_errors_L1_CACHE_VOLATILE_UNCORRECTED_0" ∈ writtenKeys c2nv) ∧
    ((dget c2dict "device_temp_0").isSome ↔ "device_temp_0" ∈ writtenKeys c2nv) :=
  ⟨(C2_amended_snapshot_key_domain c2nv false cw0 c2dict false (by rfl)).1 _,
   (C2_amended_snapshot_key_domain c2nv false cw0 c2dict false (by rfl)).1 _⟩

/-- C2 counterexample: with the ECC block failed for device 0, the first
ECC key is present (explicitly absent), but the other 19 ECC keys — here
two representatives — are missing from the snapshot entirely, refuting
"no declared key is ever missing from the mapping". -/
theorem C2_counterexample_ecc_keys_missing :
    dget c2dict "device_ecc_errors_L1_CACHE_VOLATILE_CORRECTED_0" = some PyVal.none ∧
    dget c2dict "device_ecc_errors_L1_CACHE_VOLATILE_UNCORRECTED_0" = Option.none ∧
    dget c2dict "device_ecc_errors_TEXTURE_MEMORY_AGGREGATE_UNCORRECTED_0" = Option.none :=
  ⟨rfl, rfl, rfl⟩

/-!
### C9: every snapshot value is a scalar, `None`, or a device-name string
-/

/-- Any optional scalar packs to an admissible value. -/
theorem scalarOrName_optInt (k : String) (o : Option Int) : scalarOrName k (optInt o) := by
  cases o with
  | none => exact Or.inl rfl
  | some n => exact Or.inr (Or.inl ⟨n, rfl⟩)

/-- A write of an admissible value keeps all values admissible. -/
theorem goodvals_dset (d : Dict) (k : String) (v : PyVal)
    (hd : ∀ k' v', dget d k' = some v' → scalarOrName k' v') (hv : scalarOrName k v) :
    ∀ k' v', dget (dset d k v) k' = some v' → scalarOrName k' v' := by
  intro k' v' h
  rw [dget_dset] at h
  by_cases hk : k = k'
  · subst hk
    rw [if_pos rfl] at h
    cases h
    exact hv
  · exact hd _ _ (by simpa [hk] using h)

/-- ECC packing writes only integer values. -/
theorem eccPackAux_shape (l : List (String × String × String × String)) (hp : EccHeap)
    (g : String) (d d' : Dict) (hok : eccPackAux hp g l d = Except.ok d')
    (hd : ∀ k v, dget d k = some v → scalarOrName k v) :
    ∀ k v, dget d' k = some v → scalarOrName k v := by
  induction l generalizing d with
  | nil =>
    unfold eccPackAux at hok
    cases hok
    exact hd
  | cons e rest ih =>
    obtain ⟨kn, loc, ctr, err⟩ := e
    unfold eccPackAux at hok
    split at hok
    · rename_i n hn
      exact ih _ hok (goodvals_dset _ _ _ hd (Or.inr (Or.inl ⟨n, rfl⟩)))
    · cases hok

/-- The device pack step writes only admissible values. -/
theorem packDevice_shape (st : DeviceState) (i : Nat) (d d' : Dict)
    (h : packDevice st i d = Except.ok d')
    (hd : ∀ k v, dget d k = some v → scalarOrName k v) :
    ∀ k v, dget d' k = some v → scalarOrName k v := by
  have hname : scalarOrName ("device_name_" ++ toString i) (PyVal.str st.name) :=
    Or.inr (Or.inr ⟨⟨st.name, rfl⟩, ⟨i, rfl⟩⟩)
  simp only [packDevice] at h
  split at h
  · cases h
  · rename_i m hm
    split at h
    · rw [eccPack] at h
      apply eccPackAux_shape _ _ _ _ _ h
      apply goodvals_dset _ _ _ _ (scalarOrName_optInt _ _)
      apply goodvals_dset _ _ _ _ (scalarOrName_optInt _ _)
      apply goodvals_dset _ _ _ _ (scalarOrName_optInt _ _)
      apply goodvals_dset _ _ _ _ (scalarOrName_optInt _ _)
      apply goodvals_dset _ _ _ _ (scalarOrName_optInt _ _)
      apply goodvals_dset _ _ _ _ (scalarOrName_optInt _ _)
      apply goodvals_dset _ _ _ _ (Or.inr (Or.inl ⟨m.free, rfl⟩))
      apply goodvals_dset _ _ _ _ (Or.inr (Or.inl ⟨m.used, rfl⟩))
      apply goodvals_dset _ _ _ _ (Or.inr (Or.inl ⟨m.total, rfl⟩))
      apply goodvals_dset _ _ _ _ (scalarOrName_optInt _ _)
      exact goodvals_dset _ _ _ hd hname
    · cases h
      apply goodvals_dset _ _ _ _ (Or.inl rfl)
      apply goodvals_dset _ _ _ _ (scalarOrName_optInt _ _)
      apply goodvals_dset _ _ _ _ (scalarOrName_optInt _ _)
      apply goodvals_dset _ _ _ _ (scalarOrName_optInt _ _)
      apply goodvals_dset _ _ _ _ (scalarOrName_optInt _ _)
      apply goodvals_dset _ _ _ _ (scalarOrName_optInt _ _)
      apply goodvals_dset _ _ _ _ (scalarOrName_optInt _ _)
      apply goodvals_dset _ _ _ _ (Or.inr (Or.inl ⟨m.free, rfl⟩))
      apply goodvals_dset _ _ _ _ (Or.inr (Or.inl ⟨m.used, rfl⟩))
      apply goodvals_dset _ _ _ _ (Or.inr (Or.inl ⟨m.total, rfl⟩))
      apply goodvals_dset _ _ _ _ (scalarOrName_optInt _ _)
      exact goodvals_dset _ _ _ hd hname

/-- The device loop writes only admissible values. -/
theorem packDevices_shape (devs : List DeviceState) (i0 : Nat) (d d' : Dict)
    (h : packDevices devs i0 d = Except.ok d')
    (hd : ∀ k v, dget d k = some v → scalarOrName k v) :
    ∀ k v, dget d' k = some v → scalarOrName k v := by
  induction devs generalizing i0 d with
  | nil =>
    unfold packDevices at h
    cases h
    exact hd
  | cons st rest ih =>
    unfold packDevices at h
    cases h1 : packDevice st i0 d with
    | error e => rw [h1, except_bind_error] at h; cases h
    | ok d1 =>
      rw [h1, except_bind_ok] at h
      exact ih _ _ h (packDevice_shape _ _ _ _ h1 hd)

/-- The unit loop writes only admissible (scalar or `None`) values. -/
theorem packUnits_shape (us : List UnitState) (i0 : Nat) (d : Dict)
    (hd : ∀ k v, dget d k = some v → scalarOrName k v) :
    ∀ k v, dget (packUnits us i0 d) k = some v → scalarOrName k v := by
  induction us generalizing i0 d with
  | nil => exact hd
  | cons st rest ih =>
    simp only [packUnits]
    apply ih
    simp only [packUnit]
    apply goodvals_dset _ _ _ _ (scalarOrName_optInt _ _)
    apply goodvals_dset _ _ _ _ (scalarOrName_optInt _ _)
    apply goodvals_dset _ _ _ _ (scalarOrName_optInt _ _)
    apply goodvals_dset _ _ _ _ (scalarOrName_optInt _ _)
    apply goodvals_dset _ _ _ _ (scalarOrName_optInt _ _)
    apply goodvals_dset _ _ _ _ (scalarOrName_optInt _ _)
    apply goodvals_dset _ _ _ _ (scalarOrName_optInt _ _)
    apply goodvals_dset _ _ _ _ (scalarOrName_optInt _ _)
    exact goodvals_dset _ _ _ hd (scalarOrName_optInt _ _)

/-- One legacy field extraction writes only integer values. -/
theorem legacyField_shape (d : Dict) (key : String) (cap : Option String) (d' : Dict)
    (h : legacyField d key cap = Except.ok d')
    (hd : ∀ k v, dget d k = some v → scalarOrName k v) :
    ∀ k v, dget d' k = some v → scalarOrName k v := by
  unfold legacyField at h
  split at h
  · cases h
  · split at h
    · cases h
    · split at h
      · rename_i n hn
        cases h
        exact goodvals_dset _ _ _ hd (Or.inr (Or.inl ⟨n, rfl⟩))
      · cases h
        exact hd
  · cases h
    exact hd

/-- The per-device legacy body writes only integer values. -/
theorem legacyDevice_shape (w : LegacyWorld) (i : Nat) (d d' : Dict)
    (h : legacyDevice w i d = Except.ok d')
    (hd : ∀ k v, dget d k = some v → scalarOrName k v) :
    ∀ k v, dget d' k = some v → scalarOrName k v := by
  simp only [legacyDevice] at h
  cases h1 : legacyField d ("device_temp_" ++ toString i) w.tempMatches[i]? with
  | error e => rw [h1, except_bind_error] at h; cases h
  | ok d1 =>
    rw [h1, except_bind_ok] at h
    cases h2 : legacyField d1 ("device_mem_used_" ++ toString i) w.memMatches[i]? with
    | error e => rw [h2, except_bind_error] at h; cases h
    | ok d2 =>
      rw [h2, except_bind_ok] at h
      cases h3 : legacyField d2 ("device_util_gpu_" ++ toString i)
          ((w.utilMatches[i]?).map Prod.fst) with
      | error e => rw [h3, except_bind_error] at h; cases h
      | ok d3 =>
        rw [h3, except_bind_ok] at h
        exact legacyField_shape _ _ _ _ h
          (legacyField_shape _ _ _ _ h3
            (legacyField_shape _ _ _ _ h2 (legacyField_shape _ _ _ _ h1 hd)))

/-- The legacy loop writes only integer values. -/
theorem legacyLoop_shape (w : LegacyWorld) (l : List Nat) (d d' : Dict)
    (h : legacyLoop w l d = Except.ok d')
    (hd : ∀ k v, dget d k = some v → scalarOrName k v) :
    ∀ k v, dget d' k = some v → scalarOrName k v := by
  induction l generalizing d with
  | nil =>
    unfold legacyLoop at h
    cases h
    exact hd
  | cons i rest ih =>
    unfold legacyLoop at h
    cases h1 : legacyDevice w i d with
    | error e => rw [h1, except_bind_error] at h; cases h
    | ok d1 =>
      rw [h1, except_bind_ok] at h
      exact ih _ h (legacyDevice_shape _ _ _ _ h1 hd)

/-- C9 (amended): every value in a snapshot `_get_data` returns is an
integer scalar, explicitly absent (`None`), or — for the `device_name_i`
keys only — the device-name string stored at line 332.  The original
claim said no value is ever a string; `C9_counterexample_name_is_string`
shows the name entries are strings. -/
theorem C9_amended_values_scalar_or_name (nv : NvmlState) (legacy : Bool) (w : LegacyWorld)
    (d : Dict) (b : Bool) (h : getData nv legacy w = Except.ok (d, b)) :
    ∀ k v, dget d k = some v → scalarOrName k v := by
  unfold getData at h
  cases hp : getDataPrimary nv with
  | error e => rw [hp, except_bind_error] at h; cases h
  | ok d0 =>
    rw [hp, except_bind_ok] at h
    have hd0 : ∀ k v, dget d0 k = some v → scalarOrName k v := by
      unfold getDataPrimary at hp
      cases hq : packDevices nv.devices 0 [] with
      | error e => rw [hq, except_bind_error] at hp; cases hp
      | ok dp =>
        rw [hq, except_bind_ok] at hp
        cases hp
        exact packUnits_shape _ _ _
          (packDevices_shape _ _ _ _ hq (fun k v hv => by cases hv))
    split at h
    · split at h
      · cases h
        exact hd0
      · split at h
        · rename_i d2 hll
          cases h
          exact legacyLoop_shape _ _ _ _ hll hd0
        · cases h
    · cases h
      exact hd0

/-- C9 witness: on the healthy single-device snapshot, the temperature
entry is an integer scalar and the name entry is the (string) device
name. -/
theorem C9_amended_values_scalar_or_name_witness :
    scalarOrName "device_temp_0" (PyVal.int 55) ∧
    scalarOrName "device_name_0" (PyVal.str "Tesla K80") :=
  ⟨C9_amended_values_scalar_or_name c9nv false cw0 c9dict false (by rfl) "device_temp_0"
      (PyVal.int 55) (by rfl),
   C9_amended_values_scalar_or_name c9nv false cw0 c9dict false (by rfl) "device_name_0"
      (PyVal.str "Tesla K80") (by rfl)⟩

/-- C9 counterexample: the snapshot stores the device name string under
`device_name_0` (line 332), which is neither a numeric scalar nor
absent, refuting "never a string". -/
theorem C9_counterexample_name_is_string :
    dget c9dict "device_name_0" = some (PyVal.str "Tesla K80") ∧
    (∀ n : Int, PyVal.str "Tesla K80" ≠ PyVal.int n) ∧
    PyVal.str "Tesla K80" ≠ PyVal.none :=
  ⟨rfl, fun _ h => PyVal.noConfusion h, fun h => PyVal.noConfusion h⟩

/-!
### Chart-line decomposition of `check`
-/

/-- Suffixing a chart title never changes its lines. -/
theorem suffixTitle_lines (c : ChartDef) (name : String) (c' : ChartDef)
    (h : suffixTitle c name = Except.ok c') : c'.lines = c.lines := by
  unfold suffixTitle at h
  split at h
  · cases h
    rfl
  · cases h

/-- The title loop keeps every chart's lines and the absence of the unit
charts. -/
theorem suffixAll_fields (defs : Definitions) (name : String) (d' : Definitions)
    (h : suffixAll defs name = Except.ok d') :
    d'.ecc_errors.lines = defs.ecc_errors.lines ∧ d'.memory.lines = defs.memory.lines ∧
    (defs.unit_fan = Option.none → d'.unit_fan = Option.none) ∧
    (defs.unit_psu = Option.none → d'.unit_psu = Option.none) := by
  simp only [suffixAll] at h
  cases h1 : suffixTitle defs.memory name with
  | error e => rw [h1, except_bind_error] at h; cases h
  | ok c1 =>
  rw [h1, except_bind_ok] at h
  cases h2 : suffixTitle defs.utilization name with
  | error e => rw [h2, except_bind_error] at h; cases h
  | ok c2 =>
  rw [h2, except_bind_ok] at h
  cases h3 : suffixTitle defs.memoryutilization name with
  | error e => rw [h3, except_bind_error] at h; cases h
  | ok c3 =>
  rw [h3, except_bind_ok] at h
  cases h4 : suffixTitle defs.ecc_errors name with
  | error e => rw [h4, except_bind_error] at h; cases h
  | ok c4 =>
  rw [h4, except_bind_ok] at h
  cases h5 : suffixTitle defs.temperature name with
  | error e => rw [h5, except_bind_error] at h; cases h
  | ok c5 =>
  rw [h5, except_bind_ok] at h
  cases h6 : suffixTitle defs.fan name with
  | error e => rw [h6, except_bind_error] at h; cases h
  | ok c6 =>
  rw [h6, except_bind_ok] at h
  cases h7 : suffixTitle defs.pcie name with
  | error e => rw [h7, except_bind_error] at h; cases h
  | ok c7 =>
  rw [h7, except_bind_ok] at h
  cases h8 : suffixTitle defs.power name with
  | error e => rw [h8, except_bind_error] at h; cases h
  | ok c8 =>
  rw [h8, except_bind_ok] at h
  cases h9 : suffixTitleOpt defs.unit_fan name with
  | error e => rw [h9, except_bind_error] at h; cases h
  | ok c9 =>
  rw [h9, except_bind_ok] at h
  cases h10 : suffixTitleOpt defs.unit_psu name with
  | error e => rw [h10, except_bind_error] at h; cases h
  | ok c10 =>
  rw [h10, except_bind_ok] at h
  cases h
  refine ⟨suffixTitle_lines _ _ _ h4, suffixTitle_lines _ _ _ h1, ?_, ?_⟩
  · intro hf
    rw [hf] at h9
    simp only [suffixTitleOpt] at h9
    cases h9
    rfl
  · intro hf
    rw [hf] at h10
    simp only [suffixTitleOpt] at h10
    cases h10
    rfl

/-- What one device-loop step does to the memory and ECC lines, and that
it leaves the unit charts alone. -/
theorem addDeviceLines_fields (data : Dict) (i : Nat) (defs d' : Definitions)
    (h : addDeviceLines data i defs = Except.ok d') :
    d'.ecc_errors.lines = defs.ecc_errors.lines ++ eccContrib data [i] ∧
    d'.memory.lines = defs.memory.lines ++ memContrib data [i] ∧
    d'.unit_fan = defs.unit_fan ∧ d'.unit_psu = defs.unit_psu := by
  simp only [addDeviceLines] at h
  cases h1 : dget data ("device_mem_used_" ++ toString i) with
  | none => simp only [dgetE, h1, except_bind_error] at h; cases h
  | some vMem =>
  simp only [dgetE, h1, except_bind_ok] at h
  cases h2 : dget data ("device_util_gpu_" ++ toString i) with
  | none => simp only [dgetE, h2, except_bind_error] at h; cases h
  | some vUtil =>
  simp only [dgetE, h2, except_bind_ok] at h
  cases h3 : dget data ("device_util_pcie_tx_" ++ toString i) with
  | none => simp only [dgetE, h3, except_bind_error] at h; cases h
  | some vTx =>
  simp only [dgetE, h3, except_bind_ok] at h
  cases h4 : dget data ("device_ecc_errors_L1_CACHE_VOLATILE_CORRECTED_" ++ toString i) with
  | none => simp only [dgetE, h4, except_bind_error] at h; cases h
  | some vEcc =>
  simp only [dgetE, h4, except_bind_ok] at h
  cases h5 : dget data ("device_temp_" ++ toString i) with
  | none => simp only [dgetE, h5, except_bind_error] at h; cases h
  | some vTemp =>
  simp only [dgetE, h5, except_bind_ok] at h
  cases h6 : dget data ("device_fanspeed_" ++ toString i) with
  | none => simp only [dgetE, h6, except_bind_error] at h; cases h
  | some vFan =>
  simp only [dgetE, h6, except_bind_ok] at h
  cases h7 : dget data ("device_power_" ++ toString i) with
  | none => simp only [dgetE, h7, except_bind_error] at h; cases h
  | some vPow =>
  simp only [dgetE, h7, except_bind_ok] at h
  cases h
  refine ⟨?_, ?_, rfl, rfl⟩
  · by_cases he : vEcc = PyVal.none
    · simp [eccContrib, h4, he]
    · simp [eccContrib, h4, he]
  · by_cases hm : vMem = PyVal.none
    · simp [memContrib, h1, hm]
    · simp [memContrib, h1, hm, memLine, addLine]

/-- The whole device loop appends exactly the per-device contributions. -/
theorem loopDevices_fields (data : Dict) (l : List Nat) (defs d' : Definitions)
    (h : loopDevices data l defs = Except.ok d') :
    d'.ecc_errors.lines = defs.ecc_errors.lines ++ eccContrib data l ∧
    d'.memory.lines = defs.memory.lines ++ memContrib data l ∧
    d'.unit_fan = defs.unit_fan ∧ d'.unit_psu = defs.unit_psu := by
  induction l generalizing defs with
  | nil =>
    unfold loopDevices at h
    cases h
    simp [eccContrib, memContrib]
  | cons i rest ih =>
    unfold loopDevices at h
    cases h1 : addDeviceLines data i defs with
    | error e => rw [h1, except_bind_error] at h; cases h
    | ok defs1 =>
      rw [h1, except_bind_ok] at h
      obtain ⟨he1, hm1, hf1, hp1⟩ := addDeviceLines_fields _ _ _ _ h1
      obtain ⟨he2, hm2, hf2, hp2⟩ := ih _ h
      refine ⟨?_, ?_, hf2.trans hf1, hp2.trans hp1⟩
      · rw [he2, he1]
        simp [eccContrib, List.append_assoc]
      · rw [hm2, hm1]
        simp [memContrib, List.append_assoc]

/-- What one unit-loop step does to the unit charts, and that it leaves
the memory and ECC charts alone. -/
theorem addUnitLines_fields (data : Dict) (i : Nat) (defs d' : Definitions)
    (h : addUnitLines data i defs = Except.ok d') :
    d'.ecc_errors = defs.ecc_errors ∧ d'.memory = defs.memory ∧
    d'.unit_fan = (match dget data (fanKey i) with
      | some v => if v = PyVal.none then defs.unit_fan else some (unitFanChart i)
      | Option.none => defs.unit_fan) ∧
    d'.unit_psu = (match dget data (psuKey i) with
      | some v => if v = PyVal.none then defs.unit_psu else some (unitPsuChart i)
      | Option.none => defs.unit_psu) := by
  simp only [addUnitLines] at h
  cases h1 : dget data ("unit_temp_intake_" ++ toString i) with
  | none => simp only [dgetE, h1, except_bind_error] at h; cases h
  | some vIntake =>
  simp only [dgetE, h1, except_bind_ok] at h
  cases h2 : dget data ("unit_fan_speed_" ++ toString i) with
  | none => simp only [dgetE, h2, except_bind_error] at h; cases h
  | some vFanS =>
  simp only [dgetE, h2, except_bind_ok] at h
  cases h3 : dget data ("unit_psu_current_" ++ toString i) with
  | none => simp only [dgetE, h3, except_bind_error] at h; cases h
  | some vPsu =>
  simp only [dgetE, h3, except_bind_ok] at h
  cases h
  have hfk : fanKey i = "unit_fan_speed_" ++ toString i := rfl
  have hpk : psuKey i = "unit_psu_current_" ++ toString i := rfl
  refine ⟨rfl, rfl, ?_, ?_⟩
  · rw [hfk, h2]
    by_cases hv : vFanS = PyVal.none <;> simp [hv]
  · rw [hpk, h3]
    by_cases hv : vPsu = PyVal.none <;> simp [hv]

/-- The whole unit loop folds the replacing updates over the listed
units and leaves the memory and ECC charts alone. -/
theorem loopUnits_fields (data : Dict) (l : List Nat) (defs d' : Definitions)
    (h : loopUnits data l defs = Except.ok d') :
    d'.ecc_errors = defs.ecc_errors ∧ d'.memory = defs.memory ∧
    d'.unit_fan = replaceFold data fanKey unitFanChart l defs.unit_fan ∧
    d'.unit_psu = replaceFold data psuKey unitPsuChart l defs.unit_psu := by
  induction l generalizing defs with
  | nil =>
    unfold loopUnits at h
    cases h
    simp [replaceFold]
  | cons i rest ih =>
    unfold loopUnits at h
    cases h1 : addUnitLines data i defs with
    | error e => rw [h1, except_bind_error] at h; cases h
    | ok defs1 =>
      rw [h1, except_bind_ok] at h
      obtain ⟨he1, hm1, hf1, hp1⟩ := addUnitLines_fields _ _ _ _ h1
      obtain ⟨he2, hm2, hf2, hp2⟩ := ih _ h
      refine ⟨he2.trans he1, hm2.trans hm1, ?_, ?_⟩
      · rw [hf2, hf1]
        rfl
      · rw [hp2, hp1]
        rfl

/-- Decomposition of a whole `check` run: the memory and ECC line lists
are extended by exactly the per-device contributions of the snapshot, and
the unit charts are the replacing fold over the unit indices. -/
theorem checkOn_fields (data : Dict) (n u : Nat) (defs : Definitions) (order : List String)
    (d' : Definitions) (o' : List String)
    (h : checkOn data n u defs order = Except.ok (d', o')) :
    d'.ecc_errors.lines = defs.ecc_errors.lines ++ eccContrib data (List.range n) ∧
    d'.memory.lines = defs.memory.lines ++ memContrib data (List.range n) ∧
    (defs.unit_fan = Option.none →
      d'.unit_fan = replaceFold data fanKey unitFanChart (List.range u) Option.none) ∧
    (defs.unit_psu = Option.none →
      d'.unit_psu = replaceFold data psuKey unitPsuChart (List.range u) Option.none) := by
  simp only [checkOn] at h
  cases hn : buildName data (List.range n) "" with
  | error e => rw [hn, except_bind_error] at h; cases h
  | ok name =>
  rw [hn, except_bind_ok] at h
  cases hs : suffixAll defs name with
  | error e => rw [hs, except_bind_error] at h; cases h
  | ok defsS =>
  rw [hs, except_bind_ok] at h
  cases hl : loopDevices data (List.range n) defsS with
  | error e => rw [hl, except_bind_error] at h; cases h
  | ok defsD =>
  rw [hl, except_bind_ok] at h
  obtain ⟨hsE, hsM, hsF, hsP⟩ := suffixAll_fields _ _ _ hs
  obtain ⟨hlE, hlM, hlF, hlP⟩ := loopDevices_fields _ _ _ _ hl
  split at h
  · rename_i hu
    cases hu2 : loopUnits data (List.range u) defsD with
    | error e => rw [hu2, except_bind_error] at h; cases h
    | ok defsU =>
      rw [hu2, except_bind_ok] at h
      cases h
      obtain ⟨huE, huM, huF, huP⟩ := loopUnits_fields _ _ _ _ hu2
      refine ⟨?_, ?_, ?_, ?_⟩
      · rw [huE, hlE, hsE]
      · rw [huM, hlM, hsM]
      · intro hf
        rw [huF, hlF, hsF hf]
      · intro hf
        rw [huP, hlP, hsP hf]
  · rename_i hu
    have hu0 : u = 0 := by omega
    cases h
    subst hu0
    refine ⟨?_, ?_, ?_, ?_⟩
    · rw [hlE, hsE]
    · rw [hlM, hsM]
    · intro hf
      rw [hlF, hsF hf]
      rfl
    · intro hf
      rw [hlP, hsP hf]
      rfl

/-!
### C4: ECC schema lines are all-or-nothing per device
-/

/-- C4 (confirmed): in the Schema built by `check`, the ECC chart's lines
are exactly the concatenation, in device order, of each device's
contribution, and that contribution is all-or-nothing: empty when the
device's first ECC snapshot value (`L1_CACHE_VOLATILE_CORRECTED`) is
absent (`None`), and the full 20-line group (in the fixed order of lines
197-216) when it is present. -/
theorem C4_ecc_lines_all_or_nothing (data : Dict) (n u : Nat) (d' : Definitions)
    (o' : List String) (h : checkOn data n u initialDefinitions ORDER = Except.ok (d', o')) :
    d'.ecc_errors.lines = eccContrib data (List.range n) ∧
    (∀ i, (ecc20Lines i).length = 20) ∧
    (∀ i, dget data ("device_ecc_errors_L1_CACHE_VOLATILE_CORRECTED_" ++ toString i)
        = some PyVal.none → eccContrib data [i] = []) ∧
    (∀ i v, dget data ("device_ecc_errors_L1_CACHE_VOLATILE_CORRECTED_" ++ toString i)
        = some v → v ≠ PyVal.none → eccContrib data [i] = ecc20Lines i) := by
  obtain ⟨he, _, _, _⟩ := checkOn_fields _ _ _ _ _ _ _ h
  refine ⟨by simpa [initialDefinitions] using he, fun i => rfl, ?_, ?_⟩
  · intro i hi
    simp [eccContrib, hi]
  · intro i v hv hne
    simp [eccContrib, hv, hne]

/-- C4 witness: one device with the first ECC value present: the built
Schema's ECC chart holds exactly that device's 20-line group. -/
theorem C4_ecc_lines_all_or_nothing_witness :
    c4defs.ecc_errors.lines = eccContrib c4data (List.range 1) ∧
    eccContrib c4data [0] = ecc20Lines 0 :=
  ⟨(C4_ecc_lines_all_or_nothing c4data 1 0 c4defs ORDER (by rfl)).1,
   (C4_ecc_lines_all_or_nothing c4data 1 0 c4defs ORDER (by rfl)).2.2.2 0 (PyVal.int 7)
     (by rfl) (fun h => PyVal.noConfusion h)⟩

/-!
### C5: `check` is not idempotent — it accumulates
-/

/-- C5 (amended): one `check` run from the pristine module-level `CHARTS`
state is a function of the snapshot, but the run mutates shared state:
running `check` a second time over the same snapshot appends the same
per-device lines again and re-suffixes every title, so the second run's
memory-chart and ECC-chart line lists are the first run's concatenated
with themselves — not an identical Schema. -/
theorem C5_amended_second_run_accumulates (data : Dict) (n u : Nat)
    (d1 d2 : Definitions) (o1 o2 : List String)
    (h1 : checkOn data n u initialDefinitions ORDER = Except.ok (d1, o1))
    (h2 : checkOn data n u d1 o1 = Except.ok (d2, o2)) :
    d2.memory.lines = d1.memory.lines ++ d1.memory.lines ∧
    d2.ecc_errors.lines = d1.ecc_errors.lines ++ d1.ecc_errors.lines := by
  obtain ⟨he1, hm1, _, _⟩ := checkOn_fields _ _ _ _ _ _ _ h1
  obtain ⟨he2, hm2, _, _⟩ := checkOn_fields _ _ _ _ _ _ _ h2
  simp only [initialDefinitions, List.nil_append] at he1 hm1
  constructor
  · rw [hm2, hm1]
  · rw [he2, he1]

/-- C5 witness: on the concrete one-device snapshot, the second run's
memory chart holds the first run's single line twice. -/
theorem C5_amended_second_run_accumulates_witness :
    c5run2.memory.lines = c5run1.memory.lines ++ c5run1.memory.lines :=
  (C5_amended_second_run_accumulates c5data 1 0 c5run1 c5run2 ORDER ORDER
    (by rfl) (by rfl)).1

/-- C5 counterexample: running `check` twice over the same initialization
snapshot does not produce an identical Schema: after the second run the
memory chart has two (duplicated) lines instead of one, and the
definitions differ. -/
theorem C5_counterexample_second_run_differs :
    c5run1.memory.lines.length = 1 ∧ c5run2.memory.lines.length = 2 ∧
    c5run2 ≠ c5run1 :=
  ⟨rfl, rfl, fun h => absurd (congrArg (fun d => d.memory.lines.length) h) (by decide)⟩

/-!
### C10: the unit charts are replaced wholesale per reporting unit
-/

/-- Appending index lists composes the replacing fold. -/
theorem replaceFold_append (data : Dict) (key : Nat → String) (chart : Nat → ChartDef)
    (l1 l2 : List Nat) (acc : Option ChartDef) :
    replaceFold data key chart (l1 ++ l2) acc =
      replaceFold data key chart l2 (replaceFold data key chart l1 acc) := by
  induction l1 generalizing acc with
  | nil => rfl
  | cons i rest ih =>
    simp only [List.cons_append, replaceFold]
    exact ih _

/-- Any chart produced by the replacing fold is the chart of some listed
unit, unless it was already the accumulator. -/
theorem replaceFold_some (data : Dict) (key : Nat → String) (chart : Nat → ChartDef)
    (l : List Nat) (acc : Option ChartDef) (c : ChartDef)
    (h : replaceFold data key chart l acc = some c) :
    (∃ i, i ∈ l ∧ c = chart i) ∨ acc = some c := by
  induction l generalizing acc with
  | nil =>
    unfold replaceFold at h
    exact Or.inr h
  | cons i rest ih =>
    unfold replaceFold at h
    rcases ih _ h with ⟨j, hj, hc⟩ | hacc
    · exact Or.inl ⟨j, List.mem_cons_of_mem _ hj, hc⟩
    · revert hacc
      split
      · rename_i v hv
        by_cases hn : v = PyVal.none
        · rw [if_pos hn]
          exact fun hacc => Or.inr hacc
        · rw [if_neg hn]
          intro hacc
          cases hacc
          exact Or.inl ⟨i, List.mem_cons_self _ _, rfl⟩
      · exact fun hacc => Or.inr hacc

/-- Units that do not report leave the fold unchanged. -/
theorem replaceFold_no_report (data : Dict) (key : Nat → String) (chart : Nat → ChartDef)
    (l : List Nat) (acc : Option ChartDef)
    (h : ∀ j ∈ l, ¬ reports data key j) :
    replaceFold data key chart l acc = acc := by
  induction l generalizing acc with
  | nil => rfl
  | cons i rest ih =>
    unfold replaceFold
    have hi := h i (List.mem_cons_self _ _)
    have hstep : (match dget data (key i) with
        | some v => if v = PyVal.none then acc else some (chart i)
        | Option.none => acc) = acc := by
      cases hv : dget data (key i) with
      | none => rfl
      | some v =>
        by_cases hn : v = PyVal.none
        · simp [hn]
        · exact absurd ⟨v, hv, hn⟩ hi
    rw [hstep]
    exact ih _ fun j hj => h j (List.mem_cons_of_mem _ hj)

/-- A reporting unit with no reporting unit above it determines the fold
over `List.range u`. -/
theorem replaceFold_last_report (data : Dict) (key : Nat → String) (chart : Nat → ChartDef)
    (u j : Nat) (acc : Option ChartDef) (hj : j < u) (hr : reports data key j)
    (habove : ∀ j', j < j' → j' < u → ¬ reports data key j') :
    replaceFold data key chart (List.range u) acc = some (chart j) := by
  obtain ⟨v, hv, hn⟩ := hr
  obtain ⟨m, rfl⟩ : ∃ m, u = j + 1 + m := by
    refine ⟨u - (j + 1), ?_⟩
    omega
  induction m with
  | zero =>
    rw [List.range_succ, replaceFold_append]
    simp only [replaceFold, hv]
    rw [if_neg hn]
  | succ m ih =>
    have hrange : j + 1 + (m + 1) = (j + 1 + m) + 1 := by omega
    rw [hrange, List.range_succ, replaceFold_append]
    have hnr : ¬ reports data key (j + 1 + m) := habove _ (by omega) (by omega)
    rw [ih (by omega) (fun j' h1 h2 => habove j' h1 (by omega))]
    simp only [replaceFold]
    cases hv2 : dget data (key (j + 1 + m)) with
    | none => rfl
    | some v2 =>
      by_cases hn2 : v2 = PyVal.none
      · simp [hn2]
      · exact absurd ⟨v2, hv2, hn2⟩ hnr

/-- C10 (amended): the `unit_fan` and `unit_psu` chart entries built by
`check` are each the result of wholesale replacement per reporting unit
(lines 240-250): the final entry is the chart of the highest-index
reporting unit; any produced `unit_fan` chart has exactly one metric
line, while any produced `unit_psu` chart has exactly the three lines
(current, power, voltage) of that single unit — not one.  When two or
more units report, only the highest-index reporting unit's chart
remains. -/
theorem C10_amended_unit_charts_replaced_wholesale (data : Dict) (n u : Nat)
    (d' : Definitions) (o' : List String)
    (h : checkOn data n u initialDefinitions ORDER = Except.ok (d', o')) :
    d'.unit_fan = replaceFold data fanKey unitFanChart (List.range u) Option.none ∧
    d'.unit_psu = replaceFold data psuKey unitPsuChart (List.range u) Option.none ∧
    (∀ c, d'.unit_fan = some c → c.lines.length = 1) ∧
    (∀ c, d'.unit_psu = some c → c.lines.length = 3) ∧
    (∀ j, j < u → reports data fanKey j →
      (∀ j', j < j' → j' < u → ¬ reports data fanKey j') →
      d'.unit_fan = some (unitFanChart j)) ∧
    (∀ j, j < u → reports data psuKey j →
      (∀ j', j < j' → j' < u → ¬ reports data psuKey j') →
      d'.unit_psu = some (unitPsuChart j)) := by
  obtain ⟨_, _, hf, hp⟩ := checkOn_fields _ _ _ _ _ _ _ h
  have hf' := hf rfl
  have hp' := hp rfl
  refine ⟨hf', hp', ?_, ?_, ?_, ?_⟩
  · intro c hc
    rw [hf'] at hc
    rcases replaceFold_some _ _ _ _ _ _ hc with ⟨i, _, rfl⟩ | hacc
    · rfl
    · cases hacc
  · intro c hc
    rw [hp'] at hc
    rcases replaceFold_some _ _ _ _ _ _ hc with ⟨i, _, rfl⟩ | hacc
    · rfl
    · cases hacc
  · intro j hj hr habove
    rw [hf']
    exact replaceFold_last_report _ _ _ _ _ _ hj hr habove
  · intro j hj hr habove
    rw [hp']
    exact replaceFold_last_report _ _ _ _ _ _ hj hr habove

/-- C10 witness: two units, both reporting fan speed, only unit 0
reporting PSU current: `unit_fan` ends as unit 1's single-line chart (the
highest reporting index) and `unit_psu` as unit 0's three-line chart. -/
theorem C10_amended_unit_charts_replaced_wholesale_witness :
    c10defs.unit_fan = some (unitFanChart 1) ∧
    c10defs.unit_psu = some (unitPsuChart 0) :=
  ⟨(C10_amended_unit_charts_replaced_wholesale c10data 0 2 c10defs
      (ORDER ++ ["unit_fan", "unit_psu"]) (by rfl)).2.2.2.2.1 1 (by decide)
      ⟨PyVal.int 2500, by rfl, fun h => PyVal.noConfusion h⟩
      (by intro j' h1 h2 _; omega),
   (C10_amended_unit_charts_replaced_wholesale c10data 0 2 c10defs
      (ORDER ++ ["unit_fan", "unit_psu"]) (by rfl)).2.2.2.2.2 0 (by decide)
      ⟨PyVal.int 20, by rfl, fun h => PyVal.noConfusion h⟩
      (by
        intro j' h1 h2 hr
        obtain ⟨v, hv, hn⟩ := hr
        have hj : j' = 1 := by omega
        subst hj
        exact hn (by cases hv; rfl))⟩

/-- C10 counterexample: the claim says both unit charts contain at most
one metric line; with unit 0 reporting PSU current, the `unit_psu` chart
contains three lines. -/
theorem C10_counterexample_psu_chart_has_three_lines :
    c10defs.unit_psu = some (unitPsuChart 0) ∧ (unitPsuChart 0).lines.length = 3 :=
  ⟨rfl, rfl⟩

end NvPlugin
